import Mathlib

/-! # go-watchain: receipts, chain-spec conversion, node construction, topics

A shallow embedding of

* `core/types/receipt.go`: the receipt status field (`statusEncoding`,
  `sewatatus`), the consensus and storage decoders and `NewReceipt`;
* `cmd/puppeth/genesis.go`: the three genesis conversions;
* `mobile/geth.go`: `NewNode`, and the guards of the full node constructor
  `New` of `tst/backend.go`;
* `les/api_backend.go`, `tst/api_backend.go`: `ServiceFilter`;
* `whisper/whisperv6/topic_test.go` and `swarm/storage/memstore_test.go`: the
  tables and checks of the tests, against models of the functions under test;
* `tst/backend.go`: `makeExtraData`, `Start` and `waterbase`;
* the request distributor and the retrieval manager that `les/backend.go`
  constructs, modelled from the specification.

Conventions of the embedding.

* A Go `[]byte` is a `List Byte`.  The nil slice and the empty slice are both
  `[]`: `len` and `bytes.Equal`, the only observations the embedded code makes
  of a slice, do not tell them apart.
* Fixed-size arrays (`common.Hash`, `common.Address`, `Bloom`) are lists that
  carry their length.
* `uint` and `uint64` values are natural numbers; no arithmetic is done on the
  receipt fields, so no wrap-around is involved there.
* A method with a pointer receiver that mutates the receiver and returns an
  `error` becomes a function from the receiver to `Except String` of the
  updated receiver.
-/

namespace Watchain

/-! ## Bytes and fixed-size arrays -/

/-- One octet. -/
abbrev Byte := Fin 256

/-- A Go byte slice. -/
abbrev Bytes := List Byte

/-- A Go array `[n]byte`. -/
structure FixedBytes (n : Nat) where
  data : List Byte
  size_eq : data.length = n
deriving DecidableEq

/-- The zero value of `[n]byte`. -/
def FixedBytes.zero (n : Nat) : FixedBytes n :=
  ⟨List.replicate n 0, List.length_replicate n 0⟩

/-- Length of `common.Hash`. -/
def HashLength : Nat := 32

/-- Length of `common.Address`. -/
def AddressLength : Nat := 20

/-- Length of `types.Bloom` in bytes. -/
def BloomByteLength : Nat := 256

/-- The Go type `common.Hash`. -/
abbrev Hash := FixedBytes HashLength

/-- The Go type `common.Address`. -/
abbrev Address := FixedBytes AddressLength

/-- The Go type `types.Bloom`. -/
abbrev Bloom := FixedBytes BloomByteLength

/-- One lowercase hexadecimal digit. -/
def hexDigit (n : Nat) : Char :=
  if n < 10 then Char.ofNat (48 + n) else Char.ofNat (87 + n)

/-- The verb `%x` of `fmt` applied to a byte slice: two lowercase digits per byte. -/
def hexBytes (b : Bytes) : String :=
  String.mk (b.flatMap fun x => [hexDigit (x.val / 16), hexDigit (x.val % 16)])

/-! ## core/types/receipt.go -/

/-- The status field of a failed transaction. -/
def receipwatatusFailedRLP : Bytes := []

/-- The status field of a successful transaction. -/
def receipwatatusSuccessfulRLP : Bytes := [0x01]

/-- Status code of a transaction whose execution failed. -/
def ReceipwatatusFailed : Nat := 0

/-- Status code of a transaction whose execution succeeded. -/
def ReceipwatatusSuccessful : Nat := 1

/-- The results of a transaction.  `Log` is declared in `core/types/log.go`,
which is not among the sources, and is a parameter; `Logs` is the list of the
logs pointed to. -/
structure Receipt (Log : Type) where
  Poswatate : Bytes
  Status : Nat
  CumulativeGasUsed : Nat
  Bloom : Bloom
  Logs : List Log
  TxHash : Hash
  ContractAddress : Address
  GasUsed : Nat
deriving DecidableEq

/-- The zero value of `Receipt`, the state of a receipt declared with `var`. -/
def Receipt.fresh (Log : Type) : Receipt Log where
  Poswatate := []
  Status := 0
  CumulativeGasUsed := 0
  Bloom := FixedBytes.zero BloomByteLength
  Logs := []
  TxHash := FixedBytes.zero HashLength
  ContractAddress := FixedBytes.zero AddressLength
  GasUsed := 0

/-- The consensus encoding of a receipt. -/
structure receiptRLP (Log : Type) where
  PoswatateOrStatus : Bytes
  CumulativeGasUsed : Nat
  Bloom : Bloom
  Logs : List Log
deriving DecidableEq

/-- The storage encoding of a receipt.  `LogForStorage` is a named type whose
underlying type is `Log`; the pointer conversions between the two keep the
value. -/
structure receipwatorageRLP (Log : Type) where
  PoswatateOrStatus : Bytes
  CumulativeGasUsed : Nat
  Bloom : Bloom
  TxHash : Hash
  ContractAddress : Address
  Logs : List Log
  GasUsed : Nat
deriving DecidableEq

/-- Modelled from the spec: `common.CopyBytes` is not among the sources; the doc
comment of `NewReceipt` says the init fields are copied, so the result holds
the same bytes as the argument. -/
def CopyBytes (b : Bytes) : Bytes := b

/-- The Go function `NewReceipt`. -/
def NewReceipt (Log : Type) (root : Bytes) (failed : Bool) (cumulativeGasUsed : Nat) :
    Receipt Log :=
  let r : Receipt Log :=
    { Receipt.fresh Log with Poswatate := CopyBytes root, CumulativeGasUsed := cumulativeGasUsed }
  if failed then
    { r with Status := ReceipwatatusFailed }
  else
    { r with Status := ReceipwatatusSuccessful }

/-- The error built by `fmt.Errorf("invalid receipt status %x", b)`. -/
def invalidReceiptStatus (b : Bytes) : String :=
  "invalid receipt status " ++ hexBytes b

/-- The Go method `(*Receipt).sewatatus`. -/
def Receipt.sewatatus {Log : Type} (r : Receipt Log) (poswatateOrStatus : Bytes) :
    Except String (Receipt Log) :=
  if poswatateOrStatus = receipwatatusSuccessfulRLP then
    .ok { r with Status := ReceipwatatusSuccessful }
  else if poswatateOrStatus = receipwatatusFailedRLP then
    .ok { r with Status := ReceipwatatusFailed }
  else if poswatateOrStatus.length = HashLength then
    .ok { r with Poswatate := poswatateOrStatus }
  else
    .error (invalidReceiptStatus poswatateOrStatus)

/-- The Go method `(*Receipt).statusEncoding`. -/
def Receipt.statusEncoding {Log : Type} (r : Receipt Log) : Bytes :=
  if r.Poswatate.length = 0 then
    if r.Status = ReceipwatatusFailed then
      receipwatatusFailedRLP
    else
      receipwatatusSuccessfulRLP
  else
    r.Poswatate

/-- The Go method `(*Receipt).EncodeRLP`.  The package `rlp` is not among the
sources: `encode` stands for `rlp.Encode` into the writer, at the type
`receiptRLP`. -/
def Receipt.EncodeRLP {Log Stream : Type} (encode : receiptRLP Log → Except String Stream)
    (r : Receipt Log) : Except String Stream :=
  encode ⟨r.statusEncoding, r.CumulativeGasUsed, r.Bloom, r.Logs⟩

/-- The Go method `(*Receipt).DecodeRLP`.  `decode` stands for `(*rlp.Stream).Decode`
at the type `receiptRLP`. -/
def Receipt.DecodeRLP {Log Stream : Type} (decode : Stream → Except String (receiptRLP Log))
    (r : Receipt Log) (s : Stream) : Except String (Receipt Log) :=
  match decode s with
  | .error err => .error err
  | .ok dec =>
    match r.sewatatus dec.PoswatateOrStatus with
    | .error err => .error err
    | .ok r1 =>
      .ok { r1 with
            CumulativeGasUsed := dec.CumulativeGasUsed, Bloom := dec.Bloom, Logs := dec.Logs }

/-- The Go method `(*ReceiptForStorage).EncodeRLP`; `ReceiptForStorage` is a
named type whose underlying type is `Receipt`.  `encode` stands for
`rlp.Encode` at the type `receipwatorageRLP`. -/
def ReceiptForStorage.EncodeRLP {Log Stream : Type}
    (encode : receipwatorageRLP Log → Except String Stream) (r : Receipt Log) :
    Except String Stream :=
  let enc : receipwatorageRLP Log :=
    { PoswatateOrStatus := r.statusEncoding
      CumulativeGasUsed := r.CumulativeGasUsed
      Bloom := r.Bloom
      TxHash := r.TxHash
      ContractAddress := r.ContractAddress
      Logs := r.Logs.map id
      GasUsed := r.GasUsed }
  encode enc

/-- The Go method `(*ReceiptForStorage).DecodeRLP`. -/
def ReceiptForStorage.DecodeRLP {Log Stream : Type}
    (decode : Stream → Except String (receipwatorageRLP Log))
    (r : Receipt Log) (s : Stream) : Except String (Receipt Log) :=
  match decode s with
  | .error err => .error err
  | .ok dec =>
    match r.sewatatus dec.PoswatateOrStatus with
    | .error err => .error err
    | .ok r1 =>
      -- Assign the consensus fields
      let r2 := { r1 with CumulativeGasUsed := dec.CumulativeGasUsed, Bloom := dec.Bloom }
      let r3 := { r2 with Logs := dec.Logs.map id }
      -- Assign the implementation fields
      .ok { r3 with
            TxHash := dec.TxHash, ContractAddress := dec.ContractAddress, GasUsed := dec.GasUsed }

set_option linter.unusedVariables false

/-! ## cmd/puppeth/genesis.go

Conventions of this part.

* A Go function that may panic runs in `Run`; its Go result pair
  `(*spec, error)` is a pair of options, `none` standing for `nil`.
* A `*big.Int` is an `Option Int`, `none` standing for the nil pointer.
* A Go map is a partial function from keys; the nil map and the empty map are
  the function that is `none` everywhere.  A map of pointers to structures is
  a map of the structures pointed to, `none` being what indexing an absent key
  gives, the nil pointer.
* The conversions `(hexutil.Uint64)(x)`, `(hexutil.Bytes)(x)` and
  `(*hexutil.Big)(x)` change the named type only and are left out.
-/

/-- A run-time panic of the Go program. -/
structure Panic where
  msg : String
deriving DecidableEq

/-- A computation that returns a value or panics. -/
abbrev Run (α : Type) := Except Panic α

/-- The panic raised by a method call or field access through a nil pointer. -/
def nilDereference : Panic :=
  ⟨"runtime error: invalid memory address or nil pointer dereference"⟩

/-- A Go map. -/
abbrev GoMap (K V : Type) := K → Option V

/-- The value `errors.New("unsupported consensus engine")`. -/
def errUnsupportedEngine : String := "unsupported consensus engine"

/-- The constant `math.MaxUint64`. -/
def MaxUint64 : Nat := 2 ^ 64 - 1

/-- The method `(*big.Int).Uint64`: the low 64 bits of the absolute value; a nil
receiver panics. -/
def bigUint64 (x : Option Int) : Run Nat :=
  match x with
  | none => throw nilDereference
  | some v => pure (v.natAbs % 2 ^ 64)

/-- The call `binary.LittleEndian.PutUint64` on a fresh slice of 8 bytes. -/
def putUint64LE (v : Nat) : Bytes :=
  (List.range 8).map fun i => Fin.ofNat ((v / 256 ^ i) % 256)

/-- The fields of `params.ChainConfig` read by the conversions.  The type is
declared in the package `params`, which is not among the sources. -/
structure ChainConfig where
  ChainId : Option Int
  HomesteadBlock : Option Int
  EIP150Block : Option Int
  EIP155Block : Option Int
  EIP158Block : Option Int
  ByzantiumBlock : Option Int
  watash : Option Unit

/-- The fields of `core.GenesisAccount` read by the conversions. -/
structure GenesisAccount where
  Balance : Option Int
  Nonce : Nat

/-- The fields of `core.Genesis` read by the conversions; `Config` is a pointer. -/
structure Genesis where
  Config : Option ChainConfig
  Nonce : Nat
  Timestamp : Nat
  ExtraData : Bytes
  GasLimit : Nat
  Difficulty : Option Int
  Mixhash : Hash
  Coinbase : Address
  Alloc : GoMap Address GenesisAccount
  ParentHash : Hash

/-- What the conversions take from packages that are not among the sources:
the protocol constants of `params`, the block rewards of the consensus package,
and `common.BytesToAddress`. -/
structure Env where
  MaximumExtraDataSize : Nat
  MinGasLimit : Nat
  GasLimitBoundDivisor : Nat
  MaxCodeSize : Nat
  MinimumDifficulty : Option Int
  DifficultyBoundDivisor : Option Int
  DurationLimit : Option Int
  FrontierBlockReward : Option Int
  ByzantiumBlockReward : Option Int
  BytesToAddress : Bytes → Address

/-- The Go type `cppwatchainGenesisSpecLinearPricing`. -/
structure cppwatchainGenesisSpecLinearPricing where
  Base : Nat := 0
  Word : Nat := 0

/-- The Go type `cppwatchainGenesisSpecBuiltin`. -/
structure cppwatchainGenesisSpecBuiltin where
  Name : String := ""
  StartingBlock : Nat := 0
  Linear : Option cppwatchainGenesisSpecLinearPricing := none

/-- The Go type `cppwatchainGenesisSpecAccount`. -/
structure cppwatchainGenesisSpecAccount where
  Balance : Option Int := none
  Nonce : Nat := 0
  Precompiled : Option cppwatchainGenesisSpecBuiltin := none

/-- The field `Params` of `cppwatchainGenesisSpec`. -/
structure cppwatchainGenesisSpecParams where
  AccounwatartNonce : Nat := 0
  HomesteadForkBlock : Nat := 0
  EIP150ForkBlock : Nat := 0
  EIP158ForkBlock : Nat := 0
  ByzantiumForkBlock : Nat := 0
  ConstantinopleForkBlock : Nat := 0
  NetworkID : Nat := 0
  ChainID : Nat := 0
  MaximumExtraDataSize : Nat := 0
  MinGasLimit : Nat := 0
  MaxGasLimit : Nat := 0
  GasLimitBoundDivisor : Nat := 0
  MinimumDifficulty : Option Int := none
  DifficultyBoundDivisor : Option Int := none
  DurationLimit : Option Int := none
  BlockReward : Option Int := none

/-- The field `Genesis` of `cppwatchainGenesisSpec`. -/
structure cppwatchainGenesisSpecGenesis where
  Nonce : Bytes := []
  Difficulty : Option Int := none
  MixHash : Hash := FixedBytes.zero HashLength
  Author : Address := FixedBytes.zero AddressLength
  Timestamp : Nat := 0
  ParentHash : Hash := FixedBytes.zero HashLength
  ExtraData : Bytes := []
  GasLimit : Nat := 0

/-- The Go type `cppwatchainGenesisSpec`; the defaults are the zero values. -/
structure cppwatchainGenesisSpec where
  SealEngine : String := ""
  Params : cppwatchainGenesisSpecParams := {}
  Genesis : cppwatchainGenesisSpecGenesis := {}
  Accounts : GoMap Address cppwatchainGenesisSpecAccount := fun _ => none

/-- The statement `accounts[addr].Precompiled = builtin`: indexing an absent
key gives the nil pointer, and the assignment through it panics. -/
def cppSetPrecompiled (accounts : GoMap Address cppwatchainGenesisSpecAccount) (addr : Address)
    (builtin : cppwatchainGenesisSpecBuiltin) :
    Run (GoMap Address cppwatchainGenesisSpecAccount) :=
  match accounts addr with
  | none => throw nilDereference
  | some account =>
    pure fun k => if k = addr then some { account with Precompiled := some builtin } else accounts k

/-- The Go function `newCppwatchainGenesisSpec`.  The assignments to the fields
of `spec` are kept in source order; the values they store are named first and
the structure is assembled from them at the end. -/
def newCppwatchainGenesisSpec (env : Env) (network : String) (genesis : Genesis) :
    Run (Option cppwatchainGenesisSpec × Option String) := do
  let config ← match genesis.Config with
    | none => throw nilDereference
    | some c => pure c
  -- Only ethash is currently supported between go-watereum and cpp-watereum
  if config.watash = none then
    pure (none, some errUnsupportedEngine)
  else do
    -- Reconstruct the chain spec
    let homesteadForkBlock ← bigUint64 config.HomesteadBlock
    let eip150ForkBlock ← bigUint64 config.EIP150Block
    let eip158ForkBlock ← bigUint64 config.EIP158Block
    let byzantiumForkBlock ← bigUint64 config.ByzantiumBlock
    let networkID ← bigUint64 config.ChainId
    let chainID ← bigUint64 config.ChainId
    let accounts0 : GoMap Address cppwatchainGenesisSpecAccount := fun address =>
      (genesis.Alloc address).map fun account =>
        { Balance := account.Balance, Nonce := account.Nonce }
    let accounts1 ← cppSetPrecompiled accounts0 (env.BytesToAddress [1])
      { Name := "ecrecover", Linear := some { Base := 3000 } }
    let accounts2 ← cppSetPrecompiled accounts1 (env.BytesToAddress [2])
      { Name := "sha256", Linear := some { Base := 60, Word := 12 } }
    let accounts3 ← cppSetPrecompiled accounts2 (env.BytesToAddress [3])
      { Name := "ripemd160", Linear := some { Base := 600, Word := 120 } }
    let accounts4 ← cppSetPrecompiled accounts3 (env.BytesToAddress [4])
      { Name := "identity", Linear := some { Base := 15, Word := 3 } }
    let accounts ←
      if config.ByzantiumBlock ≠ none then do
        let start5 ← bigUint64 config.ByzantiumBlock
        let accounts5 ← cppSetPrecompiled accounts4 (env.BytesToAddress [5])
          { Name := "modexp", StartingBlock := start5 }
        let start6 ← bigUint64 config.ByzantiumBlock
        let accounts6 ← cppSetPrecompiled accounts5 (env.BytesToAddress [6])
          { Name := "alt_bn128_G1_add", StartingBlock := start6, Linear := some { Base := 500 } }
        let start7 ← bigUint64 config.ByzantiumBlock
        let accounts7 ← cppSetPrecompiled accounts6 (env.BytesToAddress [7])
          { Name := "alt_bn128_G1_mul", StartingBlock := start7,
            Linear := some { Base := 40000 } }
        let start8 ← bigUint64 config.ByzantiumBlock
        cppSetPrecompiled accounts7 (env.BytesToAddress [8])
          { Name := "alt_bn128_pairing_product", StartingBlock := start8 }
      else
        pure accounts4
    let spec : cppwatchainGenesisSpec :=
      { SealEngine := "watash"
        Params :=
          { AccounwatartNonce := 0
            HomesteadForkBlock := homesteadForkBlock
            EIP150ForkBlock := eip150ForkBlock
            EIP158ForkBlock := eip158ForkBlock
            ByzantiumForkBlock := byzantiumForkBlock
            ConstantinopleForkBlock := MaxUint64
            NetworkID := networkID
            ChainID := chainID
            MaximumExtraDataSize := env.MaximumExtraDataSize
            MinGasLimit := env.MinGasLimit
            MaxGasLimit := MaxUint64
            MinimumDifficulty := env.MinimumDifficulty
            DifficultyBoundDivisor := env.DifficultyBoundDivisor
            GasLimitBoundDivisor := env.GasLimitBoundDivisor
            DurationLimit := env.DurationLimit
            BlockReward := env.FrontierBlockReward }
        Genesis :=
          { Nonce := putUint64LE genesis.Nonce
            MixHash := genesis.Mixhash
            Difficulty := genesis.Difficulty
            Author := genesis.Coinbase
            Timestamp := genesis.Timestamp
            ParentHash := genesis.ParentHash
            ExtraData := genesis.ExtraData
            GasLimit := genesis.GasLimit }
        Accounts := accounts }
    pure (some spec, none)

/-- The Go type `parityChainSpecLinearPricing`. -/
structure parityChainSpecLinearPricing where
  Base : Nat := 0
  Word : Nat := 0

/-- The Go type `parityChainSpecModExpPricing`. -/
structure parityChainSpecModExpPricing where
  Divisor : Nat := 0

/-- The Go type `parityChainSpecAltBnPairingPricing`. -/
structure parityChainSpecAltBnPairingPricing where
  Base : Nat := 0
  Pair : Nat := 0

/-- The Go type `parityChainSpecPricing`. -/
structure parityChainSpecPricing where
  Linear : Option parityChainSpecLinearPricing := none
  ModExp : Option parityChainSpecModExpPricing := none
  AltBnPairing : Option parityChainSpecAltBnPairingPricing := none

/-- The Go type `parityChainSpecBuiltin`. -/
structure parityChainSpecBuiltin where
  Name : String := ""
  ActivateAt : Nat := 0
  Pricing : Option parityChainSpecPricing := none

/-- The Go type `parityChainSpecAccount`. -/
structure parityChainSpecAccount where
  Balance : Option Int := none
  Nonce : Nat := 0
  Builtin : Option parityChainSpecBuiltin := none

/-- The field `Engine.watash.Params` of `parityChainSpec`. -/
structure parityChainSpecEngineParams where
  MinimumDifficulty : Option Int := none
  DifficultyBoundDivisor : Option Int := none
  DurationLimit : Option Int := none
  BlockReward : Option Int := none
  HomesteadTransition : Nat := 0
  EIP150Transition : Nat := 0
  EIP160Transition : Nat := 0
  EIP161abcTransition : Nat := 0
  EIP161dTransition : Nat := 0
  EIP649Reward : Option Int := none
  EIP100bTransition : Nat := 0
  EIP649Transition : Nat := 0

/-- The field `Params` of `parityChainSpec`. -/
structure parityChainSpecParams where
  MaximumExtraDataSize : Nat := 0
  MinGasLimit : Nat := 0
  GasLimitBoundDivisor : Nat := 0
  NetworkID : Nat := 0
  MaxCodeSize : Nat := 0
  EIP155Transition : Nat := 0
  EIP98Transition : Nat := 0
  EIP86Transition : Nat := 0
  EIP140Transition : Nat := 0
  EIP211Transition : Nat := 0
  EIP214Transition : Nat := 0
  EIP658Transition : Nat := 0

/-- The field `Genesis` of `parityChainSpec`; `SealNonce` and `SealMixHash` are
the fields `Seal.watchain.Nonce` and `Seal.watchain.MixHash`. -/
structure parityChainSpecGenesis where
  SealNonce : Bytes := []
  SealMixHash : Bytes := []
  Difficulty : Option Int := none
  Author : Address := FixedBytes.zero AddressLength
  Timestamp : Nat := 0
  ParentHash : Hash := FixedBytes.zero HashLength
  ExtraData : Bytes := []
  GasLimit : Nat := 0

/-- The Go type `parityChainSpec`; the defaults are the zero values. -/
structure parityChainSpec where
  Name : String := ""
  Engine : parityChainSpecEngineParams := {}
  Params : parityChainSpecParams := {}
  Genesis : parityChainSpecGenesis := {}
  Nodes : List String := []
  Accounts : GoMap Address parityChainSpecAccount := fun _ => none

/-- The statement `accounts[addr].Builtin = builtin`: indexing an absent key
gives the nil pointer, and the assignment through it panics. -/
def paritySetBuiltin (accounts : GoMap Address parityChainSpecAccount) (addr : Address)
    (builtin : parityChainSpecBuiltin) : Run (GoMap Address parityChainSpecAccount) :=
  match accounts addr with
  | none => throw nilDereference
  | some account =>
    pure fun k => if k = addr then some { account with Builtin := some builtin } else accounts k

/-- The Go function `newParityChainSpec`.  The assignments to the fields of
`spec` are kept in source order; the values they store are named first and the
structure is assembled from them at the end. -/
def newParityChainSpec (env : Env) (network : String) (genesis : Genesis)
    (bootnodes : List String) : Run (Option parityChainSpec × Option String) := do
  let config ← match genesis.Config with
    | none => throw nilDereference
    | some c => pure c
  -- Only ethash is currently supported between go-watereum and Parity
  if config.watash = none then
    pure (none, some errUnsupportedEngine)
  else do
    -- Reconstruct the chain spec in the format of Parity
    let homesteadTransition ← bigUint64 config.HomesteadBlock
    let eip150Transition ← bigUint64 config.EIP150Block
    let eip160Transition ← bigUint64 config.EIP155Block
    let eip161abcTransition ← bigUint64 config.EIP158Block
    let eip161dTransition ← bigUint64 config.EIP158Block
    let eip100bTransition ← bigUint64 config.ByzantiumBlock
    let eip649Transition ← bigUint64 config.ByzantiumBlock
    let networkID ← bigUint64 config.ChainId
    let eip155Transition ← bigUint64 config.EIP155Block
    let eip140Transition ← bigUint64 config.ByzantiumBlock
    let eip211Transition ← bigUint64 config.ByzantiumBlock
    let eip214Transition ← bigUint64 config.ByzantiumBlock
    let eip658Transition ← bigUint64 config.ByzantiumBlock
    let accounts0 : GoMap Address parityChainSpecAccount := fun address =>
      (genesis.Alloc address).map fun account =>
        { Balance := account.Balance, Nonce := account.Nonce }
    let accounts1 ← paritySetBuiltin accounts0 (env.BytesToAddress [1])
      { Name := "ecrecover", Pricing := some { Linear := some { Base := 3000 } } }
    let accounts2 ← paritySetBuiltin accounts1 (env.BytesToAddress [2])
      { Name := "sha256", Pricing := some { Linear := some { Base := 60, Word := 12 } } }
    let accounts3 ← paritySetBuiltin accounts2 (env.BytesToAddress [3])
      { Name := "ripemd160", Pricing := some { Linear := some { Base := 600, Word := 120 } } }
    let accounts4 ← paritySetBuiltin accounts3 (env.BytesToAddress [4])
      { Name := "identity", Pricing := some { Linear := some { Base := 15, Word := 3 } } }
    let accounts ←
      if config.ByzantiumBlock ≠ none then do
        let activate5 ← bigUint64 config.ByzantiumBlock
        let accounts5 ← paritySetBuiltin accounts4 (env.BytesToAddress [5])
          { Name := "modexp", ActivateAt := activate5,
            Pricing := some { ModExp := some { Divisor := 20 } } }
        let activate6 ← bigUint64 config.ByzantiumBlock
        let accounts6 ← paritySetBuiltin accounts5 (env.BytesToAddress [6])
          { Name := "alt_bn128_add", ActivateAt := activate6,
            Pricing := some { Linear := some { Base := 500 } } }
        let activate7 ← bigUint64 config.ByzantiumBlock
        let accounts7 ← paritySetBuiltin accounts6 (env.BytesToAddress [7])
          { Name := "alt_bn128_mul", ActivateAt := activate7,
            Pricing := some { Linear := some { Base := 40000 } } }
        let activate8 ← bigUint64 config.ByzantiumBlock
        paritySetBuiltin accounts7 (env.BytesToAddress [8])
          { Name := "alt_bn128_pairing", ActivateAt := activate8,
            Pricing := some { AltBnPairing := some { Base := 100000, Pair := 80000 } } }
      else
        pure accounts4
    let spec : parityChainSpec :=
      { Name := network
        Nodes := bootnodes
        Engine :=
          { MinimumDifficulty := env.MinimumDifficulty
            DifficultyBoundDivisor := env.DifficultyBoundDivisor
            DurationLimit := env.DurationLimit
            BlockReward := env.FrontierBlockReward
            HomesteadTransition := homesteadTransition
            EIP150Transition := eip150Transition
            EIP160Transition := eip160Transition
            EIP161abcTransition := eip161abcTransition
            EIP161dTransition := eip161dTransition
            EIP649Reward := env.ByzantiumBlockReward
            EIP100bTransition := eip100bTransition
            EIP649Transition := eip649Transition }
        Params :=
          { MaximumExtraDataSize := env.MaximumExtraDataSize
            MinGasLimit := env.MinGasLimit
            GasLimitBoundDivisor := env.GasLimitBoundDivisor
            NetworkID := networkID
            MaxCodeSize := env.MaxCodeSize
            EIP155Transition := eip155Transition
            EIP98Transition := MaxUint64
            EIP86Transition := MaxUint64
            EIP140Transition := eip140Transition
            EIP211Transition := eip211Transition
            EIP214Transition := eip214Transition
            EIP658Transition := eip658Transition }
        Genesis :=
          { SealNonce := putUint64LE genesis.Nonce
            SealMixHash := genesis.Mixhash.data
            Difficulty := genesis.Difficulty
            Author := genesis.Coinbase
            Timestamp := genesis.Timestamp
            ParentHash := genesis.ParentHash
            ExtraData := genesis.ExtraData
            GasLimit := genesis.GasLimit }
        Accounts := accounts }
    pure (some spec, none)

/-- The Go type `pywatchainGenesisSpec`. -/
structure pywatchainGenesisSpec where
  Nonce : Bytes := []
  Timestamp : Nat := 0
  ExtraData : Bytes := []
  GasLimit : Nat := 0
  Difficulty : Option Int := none
  Mixhash : Hash := FixedBytes.zero HashLength
  Coinbase : Address := FixedBytes.zero AddressLength
  Alloc : GoMap Address GenesisAccount := fun _ => none
  ParentHash : Hash := FixedBytes.zero HashLength

/-- The Go function `newPywatchainGenesisSpec`. -/
def newPywatchainGenesisSpec (network : String) (genesis : Genesis) :
    Run (Option pywatchainGenesisSpec × Option String) := do
  let config ← match genesis.Config with
    | none => throw nilDereference
    | some c => pure c
  -- Only ethash is currently supported between go-watereum and pywatereum
  if config.watash = none then
    pure (none, some errUnsupportedEngine)
  else do
    let spec : pywatchainGenesisSpec :=
      { Timestamp := genesis.Timestamp
        ExtraData := genesis.ExtraData
        GasLimit := genesis.GasLimit
        Difficulty := genesis.Difficulty
        Mixhash := genesis.Mixhash
        Coinbase := genesis.Coinbase
        Alloc := genesis.Alloc
        ParentHash := genesis.ParentHash }
    let spec := { spec with Nonce := putUint64LE genesis.Nonce }
    pure (some spec, none)

/-- An address made of the last 20 bytes of a slice, padded with zeros on the
left; used as the address constructor when the conversions are evaluated on
examples. -/
def rightAlignedAddress (b : Bytes) : Address :=
  ⟨List.replicate (AddressLength - (b.drop (b.length - AddressLength)).length) 0 ++
      b.drop (b.length - AddressLength), by
    simp only [List.length_append, List.length_replicate, List.length_drop, AddressLength]
    omega⟩

/-- Protocol constants used to evaluate the conversions on examples. -/
def sampleEnv : Env where
  MaximumExtraDataSize := 32
  MinGasLimit := 5000
  GasLimitBoundDivisor := 1024
  MaxCodeSize := 24576
  MinimumDifficulty := some 131072
  DifficultyBoundDivisor := some 2048
  DurationLimit := some 13
  FrontierBlockReward := some 5000000000000000000
  ByzantiumBlockReward := some 3000000000000000000
  BytesToAddress := rightAlignedAddress

/-- A genesis whose chain configuration has no proof-of-work engine, nil fork
blocks and no prefunded account. -/
def sampleGenesisNoEngine : Genesis where
  Config := some
    { ChainId := none, HomesteadBlock := none, EIP150Block := none, EIP155Block := none,
      EIP158Block := none, ByzantiumBlock := none, watash := none }
  Nonce := 66
  Timestamp := 0
  ExtraData := []
  GasLimit := 4700000
  Difficulty := some 1
  Mixhash := FixedBytes.zero HashLength
  Coinbase := FixedBytes.zero AddressLength
  Alloc := fun _ => none
  ParentHash := FixedBytes.zero HashLength

/-- A proof-of-work genesis with every fork block set, prefunding the accounts
listed in `funded` with one unit each. -/
def sampleGenesis (funded : List Address) : Genesis where
  Config := some
    { ChainId := some 3, HomesteadBlock := some 0, EIP150Block := some 0, EIP155Block := some 10,
      EIP158Block := some 10, ByzantiumBlock := some 1700000, watash := some () }
  Nonce := 66
  Timestamp := 0
  ExtraData := []
  GasLimit := 4700000
  Difficulty := some 1
  Mixhash := FixedBytes.zero HashLength
  Coinbase := FixedBytes.zero AddressLength
  Alloc := fun a => if a ∈ funded then some { Balance := some 1, Nonce := 0 } else none
  ParentHash := FixedBytes.zero HashLength

/-- The addresses 1 to 8 of the precompiled contracts. -/
def precompileAddresses : List Address :=
  [[1], [2], [3], [4], [5], [6], [7], [8]].map rightAlignedAddress

/-- Whether a run returned a specification and no error. -/
def returnsSpec {α : Type} (r : Run (Option α × Option String)) : Bool :=
  match r with
  | .ok (some _, none) => true
  | _ => false

/-- Whether a run ended in a panic. -/
def panics {α : Type} (r : Run α) : Bool :=
  match r with
  | .error _ => true
  | .ok _ => false

/-- The balance and nonce of a prefunded genesis account. -/
def genesisFunds (g : GenesisAccount) : Option Int × Nat := (g.Balance, g.Nonce)

/-- The balance and nonce of an account of a Parity chain specification. -/
def parityFunds (a : parityChainSpecAccount) : Option Int × Nat := (a.Balance, a.Nonce)

/-- The balance and nonce of an account of a cpp genesis specification. -/
def cppFunds (a : cppwatchainGenesisSpecAccount) : Option Int × Nat := (a.Balance, a.Nonce)

/-- The specification returned by a run, the zero value if there is none. -/
def specOf {α : Type} (zero : α) (r : Run (Option α × Option String)) : α :=
  match r with
  | .ok (some s, _) => s
  | _ => zero

/-- The Parity specification of the sample genesis that prefunds the eight
precompile addresses. -/
def sampleParitySpec : parityChainSpec :=
  specOf {} (newParityChainSpec sampleEnv "watnet" (sampleGenesis precompileAddresses) [])

/-- The cpp specification of the sample genesis that prefunds the eight
precompile addresses. -/
def sampleCppSpec : cppwatchainGenesisSpec :=
  specOf {} (newCppwatchainGenesisSpec sampleEnv "watnet" (sampleGenesis precompileAddresses))

/-! ## mobile/geth.go and the constructor of the full node

Conventions of this part.

* `int` and `int64` values are integers; the conversion `uint64(x)` of an
  `int64` is reduction modulo `2 ^ 64`.
* The packages `node`, `p2p`, `les`, `params`, `downloader` and the rest of the
  package `wat` are not among the sources.  What `NewNode` and `New` take from
  them is a field of `MobileEnv`, respectively an argument of `New`.
* A node is observed through what `NewNode` hands to those packages: the
  configuration given to `node.New` and the service constructors given to
  `Register`, in order.
-/

/-- The fields of `wat.Config` that the embedded code reads or writes; the
defaults are the zero values. -/
structure watConfig where
  Genesis : Option Genesis := none
  NetworkId : Nat := 0
  SyncMode : Int := 0
  LightServ : Int := 0
  LightPeers : Int := 0
  DatabaseCache : Int := 0
  DatabaseHandles : Int := 0
  ExtraData : Bytes := []

/-- The Go type `NodeConfig`; `BoowatrapNodes` is a pointer to a list of nodes.
The defaults are the zero values. -/
structure NodeConfig where
  BoowatrapNodes : Option (List String) := none
  MaxPeers : Int := 0
  watchainEnabled : Bool := false
  watchainNetworkID : Int := 0
  watchainGenesis : String := ""
  watchainDatabaseCache : Int := 0
  watchainNewatats : String := ""
  WhisperEnabled : Bool := false

/-- The fields of `p2p.Config` set by `NewNode`. -/
structure p2pConfig where
  NoDiscovery : Bool
  DiscoveryV5 : Bool
  BoowatrapNodesV5 : List String
  ListenAddr : String
  NAT : String
  MaxPeers : Int

/-- The fields of `node.Config` set by `NewNode`. -/
structure nodeConfig where
  Name : String
  Version : String
  DataDir : String
  KeyStoreDir : String
  P2P : p2pConfig

/-- The three service constructors that `NewNode` registers: the light client
built by `les.New` from a configuration, the statistics reporter built by
`watstats.New` from a connection string, and Whisper. -/
inductive ServiceConstructor where
  | les (watConf : watConfig)
  | watstats (url : String)
  | whisper

/-- The Go type `Node` of the package `gwat`: the stack made by `node.New` from
`conf`, with the constructors registered on it, oldest first. -/
structure Node where
  conf : nodeConfig
  services : List ServiceConstructor

/-- What `NewNode` takes from outside the sources.  `nodeNew` and `register`
give the error of `node.New` and of `Register`, `none` when the call succeeds;
`register` sees the constructors registered so far. -/
structure MobileEnv where
  FoundationBootnodes : List String
  clientIdentifier : String
  Version : String
  filepathJoin : String → String → String
  natAny : String
  nodeNew : nodeConfig → Option String
  register : List ServiceConstructor → ServiceConstructor → Option String
  unmarshalGenesis : String → Except String Genesis
  TestnetGenesis : String
  TestnetChainConfig : ChainConfig
  DefaultConfig : watConfig
  LightSync : Int

/-- The Go variable `defaultNodeConfig`. -/
def defaultNodeConfig (env : MobileEnv) : NodeConfig :=
  { BoowatrapNodes := some env.FoundationBootnodes
    MaxPeers := 25
    watchainEnabled := true
    watchainNetworkID := 1
    watchainDatabaseCache := 16 }

/-- The Go function `NewNodeConfig`. -/
def NewNodeConfig (env : MobileEnv) : NodeConfig := defaultNodeConfig env

/-- The conversion `uint64(x)` of an `int64`. -/
def uint64OfInt64 (x : Int) : Nat := (x % 2 ^ 64).toNat

/-- The call `Register` on a stack holding `services`. -/
def Register (env : MobileEnv) (services : List ServiceConstructor)
    (constructor : ServiceConstructor) : Except String (List ServiceConstructor) :=
  match env.register services constructor with
  | some err => .error err
  | none => .ok (services ++ [constructor])

/-- The first block of `NewNode`: if no or partial configurations were
specified, use defaults.  `config` is a pointer. -/
def applyDefaults (env : MobileEnv) (config : Option NodeConfig) : NodeConfig :=
  let config := match config with
    | none => NewNodeConfig env
    | some c => c
  let config :=
    if config.MaxPeers = 0 then { config with MaxPeers := (defaultNodeConfig env).MaxPeers }
    else config
  if config.BoowatrapNodes = none ∨ (config.BoowatrapNodes.getD []).length = 0 then
    { config with BoowatrapNodes := (defaultNodeConfig env).BoowatrapNodes }
  else config

/-- The second block of `NewNode`: the configuration of the empty networking
stack. -/
def stackConfig (env : MobileEnv) (datadir : String) (config : NodeConfig) : nodeConfig :=
  { Name := env.clientIdentifier
    Version := env.Version
    DataDir := datadir
    KeyStoreDir := env.filepathJoin datadir "keystore"
    P2P :=
      { NoDiscovery := true
        DiscoveryV5 := true
        BoowatrapNodesV5 := config.BoowatrapNodes.getD []
        ListenAddr := ":0"
        NAT := env.natAny
        MaxPeers := config.MaxPeers } }

/-- The third block of `NewNode`: the genesis to seed the chain with, nil for
the main network, and the configuration after the hard-coding for the test
network. -/
def loadGenesis (env : MobileEnv) (config : NodeConfig) :
    Except String (Option Genesis × NodeConfig) :=
  if config.watchainGenesis ≠ "" then
    -- Parse the user supplied genesis spec if not mainnet
    match env.unmarshalGenesis config.watchainGenesis with
    | .error err => .error ("invalid genesis spec: " ++ err)
    | .ok genesis =>
      -- If we have the testnet, hard code the chain configs too
      if config.watchainGenesis = env.TestnetGenesis then
        let genesis := { genesis with Config := some env.TestnetChainConfig }
        if config.watchainNetworkID = 1 then
          .ok (some genesis, { config with watchainNetworkID := 3 })
        else
          .ok (some genesis, config)
      else
        .ok (some genesis, config)
  else
    .ok (none, config)

/-- The configuration handed to `les.New` by `NewNode`. -/
def lightConfig (env : MobileEnv) (config : NodeConfig) (genesis : Option Genesis) : watConfig :=
  let watConf := env.DefaultConfig
  let watConf := { watConf with Genesis := genesis }
  let watConf := { watConf with SyncMode := env.LightSync }
  let watConf := { watConf with NetworkId := uint64OfInt64 config.watchainNetworkID }
  { watConf with DatabaseCache := config.watchainDatabaseCache }

/-- The fourth block of `NewNode`: register the watchain protocol, with the
statistics reporter, if requested. -/
def registerWatchain (env : MobileEnv) (config : NodeConfig) (genesis : Option Genesis)
    (rawStack : List ServiceConstructor) : Except String (List ServiceConstructor) :=
  if config.watchainEnabled then
    match Register env rawStack (.les (lightConfig env config genesis)) with
    | .error err => .error ("watereum init: " ++ err)
    | .ok rawStack =>
      -- If newatats reporting is requested, do it
      if config.watchainNewatats ≠ "" then
        match Register env rawStack (.watstats config.watchainNewatats) with
        | .error err => .error ("newatats init: " ++ err)
        | .ok rawStack => .ok rawStack
      else
        .ok rawStack
  else
    .ok rawStack

/-- The fifth block of `NewNode`: register the Whisper protocol if requested. -/
def registerWhisper (env : MobileEnv) (config : NodeConfig)
    (rawStack : List ServiceConstructor) : Except String (List ServiceConstructor) :=
  if config.WhisperEnabled then
    match Register env rawStack .whisper with
    | .error err => .error ("whisper init: " ++ err)
    | .ok rawStack => .ok rawStack
  else
    .ok rawStack

/-- The Go function `NewNode`, its five blocks in order; `config` is a pointer. -/
def NewNode (env : MobileEnv) (datadir : String) (config : Option NodeConfig) :
    Except String Node :=
  let config := applyDefaults env config
  let nodeConf := stackConfig env datadir config
  match env.nodeNew nodeConf with
  | some err => .error err
  | none =>
    match loadGenesis env config with
    | .error err => .error err
    | .ok (genesis, config) =>
      match registerWatchain env config genesis [] with
      | .error err => .error err
      | .ok rawStack =>
        match registerWhisper env config rawStack with
        | .error err => .error err
        | .ok rawStack => .ok ⟨nodeConf, rawStack⟩

/-- The Go function `CreateDB`; `openDatabase` stands for `ctx.OpenDatabase`.
The call of `Meter` on the database only instruments it and is left out. -/
def CreateDB {Db : Type} (openDatabase : String → Int → Int → Except String Db)
    (config : watConfig) (name : String) : Except String Db :=
  match openDatabase name config.DatabaseCache config.DatabaseHandles with
  | .error err => .error err
  | .ok db => .ok db

/-- The Go function `New` of the package `wat`, the constructor of the full
node, together with the names of the databases it opened.  `LightSync` and
`IsValid` are the constant and the method of `downloader.SyncMode`, an integer
type; `assemble` stands for the statements after the call of `CreateDB`, which
build the service from the open database through packages that are not among
the sources. -/
def New {Db Service : Type} (LightSync : Int) (IsValid : Int → Bool)
    (openDatabase : String → Int → Int → Except String Db)
    (assemble : watConfig → Db → Except String Service) (config : watConfig) :
    Except String Service × List String :=
  if config.SyncMode = LightSync then
    (.error "can't run wat.watchain in light sync mode, use les.Lightwatchain", [])
  else if ¬ IsValid config.SyncMode then
    (.error ("invalid sync mode " ++ toString config.SyncMode), [])
  else
    match CreateDB openDatabase config "chaindata" with
    | .error err => (.error err, ["chaindata"])
    | .ok chainDb => (assemble config chainDb, ["chaindata"])

/-- An environment in which to evaluate `NewNode` on examples: every call into
the node package succeeds, and the genesis strings that parse are `testnet`
and `custom`. -/
def sampleMobileEnv : MobileEnv where
  FoundationBootnodes := ["enode://foundation"]
  clientIdentifier := "gwat"
  Version := "1.8.0"
  filepathJoin := fun a b => a ++ "/" ++ b
  natAny := "any"
  nodeNew := fun _ => none
  register := fun _ _ => none
  unmarshalGenesis := fun s =>
    if s = "testnet" ∨ s = "custom" then .ok (sampleGenesis []) else .error "invalid character"
  TestnetGenesis := "testnet"
  TestnetChainConfig :=
    { ChainId := some 3, HomesteadBlock := some 0, EIP150Block := some 0, EIP155Block := some 10,
      EIP158Block := some 10, ByzantiumBlock := some 1700000, watash := some () }
  DefaultConfig := { NetworkId := 1, SyncMode := 1, DatabaseCache := 768, DatabaseHandles := 1024 }
  LightSync := 2

/-- Whether a service constructor is the light client. -/
def ServiceConstructor.isLes : ServiceConstructor → Bool
  | .les _ => true
  | _ => false

/-- The configurations of the light clients among registered constructors. -/
def lesConfigs : List ServiceConstructor → List watConfig
  | [] => []
  | .les c :: rest => c :: lesConfigs rest
  | _ :: rest => lesConfigs rest

/-! ## Bloom filter servicing: les/api_backend.go and tst/api_backend.go

A `go` statement is recorded as the call it starts; a function that only
starts goroutines returns the list of the calls started, in order.
-/

/-- The constants `bloomFilterThreads`, `bloomRetrievalBatch` and
`bloomRetrievalWait` of a package.  Each of the packages `les` and `wat`
declares its own, in a file that is not among the sources; the thread count is
a non-negative loop bound and the wait is a duration in nanoseconds. -/
structure BloomConstants where
  bloomFilterThreads : Nat
  bloomRetrievalBatch : Nat
  bloomRetrievalWait : Nat
deriving DecidableEq

/-- A started call `session.Multiplex(batch, wait, mux)`. -/
structure MultiplexCall (Session Chan : Type) where
  session : Session
  batch : Nat
  wait : Nat
  mux : Chan
deriving DecidableEq

/-- The Go type `LesApiBackend`, reduced to the field `wat.bloomRequests`. -/
structure LesApiBackend (Chan : Type) where
  bloomRequests : Chan

/-- The Go type `watApiBackend`, reduced to the field `wat.bloomRequests`. -/
structure watApiBackend (Chan : Type) where
  bloomRequests : Chan

/-- The Go method `(*LesApiBackend).ServiceFilter`. -/
def LesApiBackend.ServiceFilter {Ctx Session Chan : Type} (k : BloomConstants)
    (b : LesApiBackend Chan) (ctx : Ctx) (session : Session) :
    List (MultiplexCall Session Chan) :=
  (List.range k.bloomFilterThreads).map fun _ =>
    ⟨session, k.bloomRetrievalBatch, k.bloomRetrievalWait, b.bloomRequests⟩

/-- The Go method `(*watApiBackend).ServiceFilter`. -/
def watApiBackend.ServiceFilter {Ctx Session Chan : Type} (k : BloomConstants)
    (b : watApiBackend Chan) (ctx : Ctx) (session : Session) :
    List (MultiplexCall Session Chan) :=
  (List.range k.bloomFilterThreads).map fun _ =>
    ⟨session, k.bloomRetrievalBatch, k.bloomRetrievalWait, b.bloomRequests⟩

/-! ## Whisper topics: whisper/whisperv6/topic_test.go

The file `topic.go` that the tests exercise is not among the sources.  The
functions under test are modelled from the claims and compared with the tables
of the tests, which are embedded as they stand.  Text is a list of characters.
-/

/-- The constant `TopicLength`. -/
def TopicLength : Nat := 4

/-- The Go type `TopicType`, an array of four bytes. -/
abbrev TopicType := FixedBytes TopicLength

/-- A topic from its four bytes. -/
def TopicType.mk4 (a b c d : Byte) : TopicType := ⟨[a, b, c, d], rfl⟩

/-- Modelled from the spec: `BytesToTopic` of `topic.go`, which is not among
the sources; the first four bytes of the slice, padded with zeros on the right
when the slice is shorter. -/
def BytesToTopic (b : Bytes) : TopicType :=
  ⟨b.take TopicLength ++ List.replicate (TopicLength - (b.take TopicLength).length) 0, by
    simp only [List.length_append, List.length_replicate, List.length_take, TopicLength]
    omega⟩

/-- The two hexadecimal digits of each byte, in order. -/
def hexChars (b : Bytes) : List Char :=
  b.flatMap fun x => [hexDigit (x.val / 16), hexDigit (x.val % 16)]

/-- Modelled from the spec: `(*TopicType).String` of `topic.go`, which is not
among the sources; the prefix 0x followed by the lowercase hexadecimal digits
of the four bytes. -/
def TopicType.String (t : TopicType) : String :=
  String.mk ('0' :: 'x' :: hexChars t.data)

/-- The value of a hexadecimal digit, of either case. -/
def hexNibble (c : Char) : Option Nat :=
  let n := c.toNat
  if 48 ≤ n ∧ n ≤ 57 then some (n - 48)
  else if 97 ≤ n ∧ n ≤ 102 then some (n - 87)
  else if 65 ≤ n ∧ n ≤ 70 then some (n - 55)
  else none

/-- The byte written with the hexadecimal digits at positions `2 * i` and
`2 * i + 1`. -/
def byteAt (nibbles : List Nat) (i : Nat) : Byte :=
  Fin.ofNat (16 * nibbles.getD (2 * i) 0 + nibbles.getD (2 * i + 1) 0)

/-- Modelled from the spec: `(*TopicType).UnmarshalText` of `topic.go`, which
is not among the sources; the text must be the prefix 0x followed by exactly
eight hexadecimal digits, and byte `i` of the topic is given by the digits
`2 * i` and `2 * i + 1`. -/
def UnmarshalText (input : List Char) : Except String TopicType :=
  if input.take 2 ≠ ['0', 'x'] then
    .error "hex string without 0x prefix"
  else
    let raw := input.drop 2
    if raw.length % 2 ≠ 0 then
      .error "hex string of odd length"
    else if raw.length / 2 ≠ TopicLength then
      .error "hex string has wrong length for Topic"
    else if ¬ raw.all (fun c => (hexNibble c).isSome) then
      .error "invalid hex string"
    else
      let nibbles := raw.map fun c => (hexNibble c).getD 0
      .ok (TopicType.mk4 (byteAt nibbles 0) (byteAt nibbles 1) (byteAt nibbles 2)
        (byteAt nibbles 3))

/-- The double quote that delimits a JSON string. -/
def jsonQuote : Char := Char.ofNat 34

/-- The backslash that starts an escape in a JSON string. -/
def jsonEscape : Char := Char.ofNat 92

/-- The JSON string literal with the given content, for a content that needs
no escape. -/
def jsonString (content : List Char) : List Char :=
  jsonQuote :: (content ++ [jsonQuote])

/-- The content of a JSON string literal that has no escape. -/
def jsonContent (data : List Char) : Option (List Char) :=
  match data with
  | [] => none
  | q :: rest =>
    if q = jsonQuote ∧ rest.getLast? = some jsonQuote ∧
        jsonQuote ∉ rest.dropLast ∧ jsonEscape ∉ rest.dropLast then
      some rest.dropLast
    else none

/-- Modelled from the spec: `json.Unmarshal` into a topic, as the tests call
it; the data must be a JSON string, whose content is handed to
`UnmarshalText`. -/
def UnmarshalJSON (data : List Char) : Except String TopicType :=
  match jsonContent data with
  | none => .error "json: cannot unmarshal into Go value of type whisperv6.TopicType"
  | some content => UnmarshalText content

/-- The table `topicStringTests`. -/
def topicStringTests : List (TopicType × String) :=
  [ (TopicType.mk4 0x00 0x00 0x00 0x00, "0x00000000"),
    (TopicType.mk4 0x00 0x7f 0x80 0xff, "0x007f80ff"),
    (TopicType.mk4 0xff 0x80 0x7f 0x00, "0xff807f00"),
    (TopicType.mk4 0xf2 0x6e 0x77 0x79, "0xf26e7779") ]

/-- The table `bytesToTopicTests`; the last two entries are the empty and the
nil slice. -/
def bytesToTopicTests : List (Bytes × TopicType) :=
  [ ([0x8f, 0x9a, 0x2b, 0x7d], TopicType.mk4 0x8f 0x9a 0x2b 0x7d),
    ([0x00, 0x7f, 0x80, 0xff], TopicType.mk4 0x00 0x7f 0x80 0xff),
    ([0x00, 0x00, 0x00, 0x00], TopicType.mk4 0x00 0x00 0x00 0x00),
    ([0x00, 0x00, 0x00], TopicType.mk4 0x00 0x00 0x00 0x00),
    ([0x01], TopicType.mk4 0x01 0x00 0x00 0x00),
    ([0x00, 0xfe], TopicType.mk4 0x00 0xfe 0x00 0x00),
    ([0xea, 0x1d, 0x43], TopicType.mk4 0xea 0x1d 0x43 0x00),
    ([0x6f, 0x3c, 0xb0, 0xdd, 0x0f, 0x00, 0x90], TopicType.mk4 0x6f 0x3c 0xb0 0xdd),
    ([], TopicType.mk4 0x00 0x00 0x00 0x00),
    ([], TopicType.mk4 0x00 0x00 0x00 0x00) ]

/-- The table `unmarshalTestsGood`: the content of each JSON string and the
topic expected. -/
def unmarshalTestsGood : List (TopicType × String) :=
  [ (TopicType.mk4 0x00 0x00 0x00 0x00, "0x00000000"),
    (TopicType.mk4 0x00 0x7f 0x80 0xff, "0x007f80ff"),
    (TopicType.mk4 0xff 0x80 0x7f 0x00, "0xff807f00"),
    (TopicType.mk4 0xf2 0x6e 0x77 0x79, "0xf26e7779") ]

/-- The table `unmarshalTestsBad`: the content of each JSON string. -/
def unmarshalTestsBad : List String :=
  [ "0x000000", "0x0000000", "0x000000000", "0x0000000000",
    "000000", "0000000", "000000000", "0000000000", "abcdefg0" ]

/-- The table `unmarshalTestsUgly`: a topic and the content of a JSON string
that decodes, but not to that topic. -/
def unmarshalTestsUgly : List (TopicType × String) :=
  [ (TopicType.mk4 0x01 0x00 0x00 0x00, "0x00000001") ]

/-- What `TestTopicString` checks. -/
def TestTopicString : Bool :=
  topicStringTests.all fun tst => tst.1.String = tst.2

/-- What `TestBytesToTopic` checks. -/
def TestBytesToTopic : Bool :=
  bytesToTopicTests.all fun tst => BytesToTopic tst.1 = tst.2

/-- Whether a run ended in an error. -/
def failed {α : Type} (r : Except String α) : Bool :=
  match r with
  | .error _ => true
  | .ok _ => false

/-- Whether a run returned the given topic. -/
def returned (r : Except String TopicType) (t : TopicType) : Bool :=
  match r with
  | .error _ => false
  | .ok v => v = t

/-- What `TestUnmarshalTestsGood` checks. -/
def TestUnmarshalTestsGood : Bool :=
  unmarshalTestsGood.all fun tst => returned (UnmarshalJSON (jsonString tst.2.data)) tst.1

/-- What `TestUnmarshalTestsBad` checks. -/
def TestUnmarshalTestsBad : Bool :=
  unmarshalTestsBad.all fun data => failed (UnmarshalJSON (jsonString data.data))

/-- What `TestUnmarshalTestsUgly` checks. -/
def TestUnmarshalTestsUgly : Bool :=
  unmarshalTestsUgly.all fun tst =>
    !failed (UnmarshalJSON (jsonString tst.2.data)) &&
      !returned (UnmarshalJSON (jsonString tst.2.data)) tst.1

/-- A text is well formed when it is the prefix 0x followed by exactly eight
hexadecimal digits. -/
def wellFormedTopicText (input : List Char) : Prop :=
  ∃ digits : List Char, input = '0' :: 'x' :: digits ∧ digits.length = 8 ∧
    ∀ c ∈ digits, (hexNibble c).isSome = true

/-! ## The memory store: swarm/storage/memstore_test.go -/

/-- The error `notFound` of the package `storage`. -/
def notFound : String := "not found"

/-- Modelled from the spec: the type `MemStore` of `memstore.go`, which is not
among the sources; a store of chunks by key with a capacity. -/
structure MemStore (Chunk : Type) where
  capacity : Nat
  entries : List (Bytes × Chunk)

/-- Modelled from the spec: `NewMemStore` of `memstore.go`; a freshly created
store holds no chunk. -/
def NewMemStore (Chunk : Type) (capacity : Nat) : MemStore Chunk :=
  ⟨capacity, []⟩

/-- Modelled from the spec: `(*MemStore).Get` of `memstore.go`; the chunk
stored under the key, or the error `notFound`. -/
def MemStore.Get {Chunk : Type} (m : MemStore Chunk) (key : Bytes) : Except String Chunk :=
  match m.entries.lookup key with
  | some chunk => .ok chunk
  | none => .error notFound

/-- The constant `ZeroKey`: 32 zero bytes. -/
def ZeroKey : Bytes := List.replicate 32 0

/-! ## The full node service: tst/backend.go

Conventions of this part.

* A Go `int` is an integer in the 64-bit range; an arithmetic result is
  wrapped into that range by `wrapInt`.
* A method that starts components returns the error, `none` for `nil`,
  together with the components started, in order.
* The account manager is observed through the wallets it lists and the
  addresses of the accounts of each wallet, in order.
* The locks around the field `waterbase` are left out: the methods are
  embedded as run one at a time.
-/

/-- The value of an integer as a Go `int` of 64 bits. -/
def wrapInt (x : Int) : Int := (x + 2 ^ 63) % 2 ^ 64 - 2 ^ 63

/-- Whether an integer is a value of the Go type `int`. -/
def isInt (x : Int) : Prop := -(2 ^ 63) ≤ x ∧ x < 2 ^ 63

/-- The Go function `makeExtraData`.  `maximumExtraDataSize` is the constant
`params.MaximumExtraDataSize`; `defaultExtra` stands for the bytes returned by
`rlp.EncodeToBytes` for the version, the client name and the runtime, whose
error is discarded.  Both come from packages that are not among the sources. -/
def makeExtraData (maximumExtraDataSize : Nat) (defaultExtra : Bytes) (extra : Bytes) : Bytes :=
  -- create default extradata
  let extra := if extra.length = 0 then defaultExtra else extra
  if extra.length > maximumExtraDataSize then
    []
  else
    extra

/-- The fields of the Go type `watchain` read or written by `Start` and
`waterbase`: the configuration, the configured address, the wallets of the
account manager, whether a light server was added, and the network id. -/
structure watchain where
  config : watConfig := {}
  waterbase : Address := FixedBytes.zero AddressLength
  wallets : List (List Address) := []
  lesServer : Bool := false
  networkId : Nat := 0

/-- A component started by `Start`. -/
inductive Started where
  | bloomHandlers
  | netRPCService (netVersion : Nat)
  | protocolManager (maxPeers : Int)
  | lesServer
deriving DecidableEq

/-- The error built by `Start` for a light peer count not below the total. -/
def invalidPeerConfig (lightPeers maxPeers : Int) : String :=
  "invalid peer config: light peer count (" ++ toString lightPeers ++
    ") >= total peer count (" ++ toString maxPeers ++ ")"

/-- The Go method `(*watchain).Start`; `srvrMaxPeers` is `srvr.MaxPeers`. -/
def watchain.Start (s : watchain) (srvrMaxPeers : Int) : Option String × List Started :=
  -- Start the bloom bits servicing goroutines
  let started := [Started.bloomHandlers]
  -- Start the RPC service
  let started := started ++ [Started.netRPCService s.networkId]
  -- Figure out a max peers count based on the server limits
  let maxPeers := srvrMaxPeers
  if s.config.LightServ > 0 then
    if s.config.LightPeers ≥ srvrMaxPeers then
      (some (invalidPeerConfig s.config.LightPeers srvrMaxPeers), started)
    else
      let maxPeers := wrapInt (maxPeers - s.config.LightPeers)
      -- Start the networking layer and the light server if requested
      let started := started ++ [Started.protocolManager maxPeers]
      if s.lesServer then (none, started ++ [Started.lesServer]) else (none, started)
  else
    -- Start the networking layer and the light server if requested
    let started := started ++ [Started.protocolManager maxPeers]
    if s.lesServer then (none, started ++ [Started.lesServer]) else (none, started)

/-- The peer count handed to the protocol manager among started components. -/
def protocolManagerPeers : List Started → Option Int
  | [] => none
  | .protocolManager n :: _ => some n
  | _ :: rest => protocolManagerPeers rest

/-- The error of `waterbase` when no address can be found. -/
def errWaterbaseMissing : String := "waterbase must be explicitly specified"

/-- The Go method `(*watchain).waterbase`: the address, the error, and the
service after the call.  The name of the field `waterbase` is taken by the
field, so the method is `waterbaseOf`. -/
def watchain.waterbaseOf (s : watchain) : Address × Option String × watchain :=
  let waterbase := s.waterbase
  if waterbase ≠ FixedBytes.zero AddressLength then
    (waterbase, none, s)
  else
    match s.wallets with
    | accounts :: _ =>
      match accounts with
      | account :: _ =>
        let waterbase := account
        (waterbase, none, { s with waterbase := waterbase })
      | [] => (FixedBytes.zero AddressLength, some errWaterbaseMissing, s)
    | [] => (FixedBytes.zero AddressLength, some errWaterbaseMissing, s)

/-! ## Retrieval: the distributor and the retrieval manager

`les/backend.go` constructs the request distributor and the retrieval manager
(`newRequestDistributor`, `newRetrieveManager`); the files that define them are
not among the sources.  They are modelled from sections 3, 4.3, 4.4 and 7 of
the specification.  One session is followed from its creation to its terminal
state; the answers of the peers are given by a function of the peer and of the
number of the attempt.  The overall deadline passes only while the session is
suspended for lack of an eligible peer, and the session then fails as step 5
of section 4.4 says; reports to the server pool are left out.
-/

/-- Modelled from the spec: the kinds of request of section 3, which are not
declared in the sources: a header range, a body, a receipt set, a trie or proof
blob, contract code. -/
inductive RequestKind where
  | headers
  | body
  | receipts
  | proof
  | code
deriving DecidableEq

/-- Modelled from the spec: the peer of section 3, which is not declared in the
sources: identity, outstanding-request count, serving capacity, cost estimate,
liveness flag, and the request kinds it advertises. -/
structure Peer where
  id : Nat
  outstanding : Nat
  capacity : Nat
  cost : Nat
  alive : Bool
  kinds : List RequestKind
deriving DecidableEq

/-- Modelled from the spec: what makes a registered peer able to serve a kind
of request, apart from exclusion, in section 4.3, which the sources do not
define: alive, not over capacity, advertising the kind. -/
def servable (kind : RequestKind) (p : Peer) : Bool :=
  p.alive && decide (p.outstanding < p.capacity) && decide (kind ∈ p.kinds)

/-- Modelled from the spec: the eligible peers of section 4.3, which the
sources do not define: registered, not excluded, not over capacity, advertising
the kind. -/
def eligible (kind : RequestKind) (excluded : List Nat) (p : Peer) : Bool :=
  servable kind p && decide (p.id ∉ excluded)

/-- Modelled from the spec: the order of selection of section 4.3, which the
sources do not define: lowest cost first, ties broken by peer id. -/
def cheaper (p q : Peer) : Bool :=
  decide (p.cost < q.cost) || (decide (p.cost = q.cost) && decide (p.id < q.id))

/-- The first peer of a list in the order `cheaper`. -/
def pickBest : List Peer → Option Peer
  | [] => none
  | p :: rest =>
    match pickBest rest with
    | none => some p
    | some q => if cheaper q p then some q else some p

/-- Modelled from the spec: `Distribute` of section 4.3, which the sources do
not define: the eligible peer of lowest cost, or none when no peer is
eligible, in which case the caller is suspended. -/
def Distribute (registry : List Peer) (kind : RequestKind) (excluded : List Nat) :
    Option Peer :=
  pickBest (registry.filter (eligible kind excluded))

/-- Modelled from the spec: the side effect of `Distribute` in section 4.3,
which the sources do not define: the outstanding-request counter of the chosen
peer is incremented. -/
def reserve (registry : List Peer) (id : Nat) : List Peer :=
  registry.map fun p => if p.id = id then { p with outstanding := p.outstanding + 1 } else p

/-- Modelled from the spec: the decrement of the counter by the retrieval
manager on completion or failure, section 4.3, which the sources do not
define. -/
def release (registry : List Peer) (id : Nat) : List Peer :=
  registry.map fun p => if p.id = id then { p with outstanding := p.outstanding - 1 } else p

/-- Modelled from the spec: the states of a retrieval session, section 3, which
the sources do not define. -/
inductive SessionState where
  | Pending
  | InFlight (peer : Nat)
  | Validating
  | Done
  | Failed
deriving DecidableEq

/-- Modelled from the spec: what an attempt ends with, section 4.4, which the
sources do not define: a timeout, a response that fails validation, or a
response that passes it. -/
inductive Answer where
  | timeout
  | invalid
  | valid
deriving DecidableEq

/-- Modelled from the spec: the errors that a retrieval surfaces to its caller,
section 7, which the sources do not define: exhaustion, of the attempts or of
the deadline (section 4.4, step 5), and cancellation by the caller.  The model
follows a session that is not cancelled. -/
inductive RetrievalError where
  | exhausted
  | cancelled
deriving DecidableEq

/-- Modelled from the spec: the retrieval session of section 3, which the
sources do not define: its state, the attempts so far, the peers already
tried, the wire requests issued (the peer of each, latest first), the error it
ended with, and the peer registry. -/
structure Session where
  state : SessionState
  attempts : Nat
  tried : List Nat
  sent : List Nat
  error : Option RetrievalError
  registry : List Peer

/-- A fresh session: pending, no peer assigned yet. -/
def Session.init (registry : List Peer) : Session :=
  ⟨.Pending, 0, [], [], none, registry⟩

/-- Modelled from the spec: the loop of section 4.4, step 2 to step 5, which
the sources do not define, with `remaining` attempts left: ask the distributor
for a peer excluding the peers already tried, send the request, and on a
timeout or an invalid response exclude the peer and retry; with no attempt
left the session is failed as exhausted, and so is it when no peer is
eligible, the caller being suspended until the deadline has passed. -/
def retrieveLoop (kind : RequestKind) (answer : Nat → Nat → Answer) :
    (remaining : Nat) → Session → Session
  | 0, s => { s with state := .Failed, error := some .exhausted }
  | remaining + 1, s =>
    match Distribute s.registry kind s.tried with
    | none => { s with state := .Failed, error := some .exhausted }
    | some p =>
      let inFlight : Session :=
        { s with
          state := .InFlight p.id, attempts := s.attempts + 1, sent := p.id :: s.sent,
          registry := reserve s.registry p.id }
      match answer p.id s.attempts with
      | .valid => { inFlight with state := .Done, registry := release inFlight.registry p.id }
      | _ =>
        retrieveLoop kind answer remaining
          { inFlight with
            state := .Pending, tried := p.id :: inFlight.tried,
            registry := release inFlight.registry p.id }

/-- Modelled from the spec: `Retrieve` of section 4.4, which the sources do
not define, for one session with the given maximum of attempts. -/
def Retrieve (maxAttempts : Nat) (registry : List Peer) (kind : RequestKind)
    (answer : Nat → Nat → Answer) : Session :=
  retrieveLoop kind answer maxAttempts (Session.init registry)

/-- The identities of the peers of a registry able to serve a kind of request,
each once. -/
def servableIds (registry : List Peer) (kind : RequestKind) : List Nat :=
  ((registry.filter (servable kind)).map Peer.id).dedup

/-- A registry of three peers serving every kind of request, used to evaluate
retrievals on examples. -/
def sampleRegistry : List Peer :=
  [ ⟨1, 0, 4, 30, true, [.headers, .body, .receipts, .proof, .code]⟩,
    ⟨2, 0, 4, 10, true, [.headers, .body, .receipts, .proof, .code]⟩,
    ⟨3, 1, 4, 10, true, [.headers, .body, .receipts, .proof, .code]⟩ ]

/-- Encode a receipt for storage and load the result into a fresh receipt,
the path taken by a receipt written to and read back from the database. -/
def storageRoundTrip {Log Stream : Type}
    (encode : receipwatorageRLP Log → Except String Stream)
    (decode : Stream → Except String (receipwatorageRLP Log))
    (r : Receipt Log) : Except String (Receipt Log) :=
  match ReceiptForStorage.EncodeRLP encode r with
  | .error err => .error err
  | .ok s => ReceiptForStorage.DecodeRLP decode (Receipt.fresh Log) s

/-! ## Theorems: receipts -/

section ReceiptTheorems

variable {Log : Type}

theorem hexBytes_example : invalidReceiptStatus [0xab, 0x01] = "invalid receipt status ab01" := by
  decide

theorem sewatatus_ok_cases (r : Receipt Log) (b : Bytes) (r1 : Receipt Log)
    (h : r.sewatatus b = .ok r1) :
    (b = receipwatatusSuccessfulRLP ∧ r1 = { r with Status := ReceipwatatusSuccessful }) ∨
    (b = receipwatatusFailedRLP ∧ r1 = { r with Status := ReceipwatatusFailed }) ∨
    (b ≠ receipwatatusSuccessfulRLP ∧ b ≠ receipwatatusFailedRLP ∧ b.length = HashLength ∧
      r1 = { r with Poswatate := b }) := by
  unfold Receipt.sewatatus at h
  split_ifs at h with h1 h2 h3
  · exact Or.inl ⟨h1, (Except.ok.inj h).symm⟩
  · exact Or.inr (Or.inl ⟨h2, (Except.ok.inj h).symm⟩)
  · exact Or.inr (Or.inr ⟨h1, h2, h3, (Except.ok.inj h).symm⟩)

/-- C1: decoding a byte string b as the status field fails, with the error
"invalid receipt status" followed by b in hexadecimal, if and only if b is
neither the failed marker, nor the successful marker, nor 32 bytes long; no
other error is possible. -/
theorem sewatatus_error_iff (r : Receipt Log) (b : Bytes) :
    ((∃ err, r.sewatatus b = .error err) ↔
      (b ≠ receipwatatusFailedRLP ∧ b ≠ [0x01] ∧ b.length ≠ 32)) ∧
    (r.sewatatus b = .error (invalidReceiptStatus b) ↔
      (b ≠ receipwatatusFailedRLP ∧ b ≠ [0x01] ∧ b.length ≠ 32)) := by
  unfold Receipt.sewatatus
  split_ifs with h1 h2 h3
  · simp [h1, receipwatatusSuccessfulRLP]
  · simp [h2]
  · simp [h3, HashLength]
  · simp only [receipwatatusSuccessfulRLP] at h1
    simp only [HashLength] at h3
    simp [h1, h2, h3]

/-- C2: for a receipt whose post-state is 32 bytes long, whatever its status,
decoding its encoded status field into a fresh receipt succeeds and gives a
post-state equal to the one encoded. -/
theorem statusEncoding_sewatatus_poswatate (r : Receipt Log) (h : r.Poswatate.length = 32) :
    ∃ r1, (Receipt.fresh Log).sewatatus r.statusEncoding = .ok r1 ∧
      r1.Poswatate = r.Poswatate := by
  have henc : r.statusEncoding = r.Poswatate := by
    simp [Receipt.statusEncoding, h]
  have h1 : r.Poswatate ≠ receipwatatusSuccessfulRLP := by
    intro hc; rw [hc] at h; simp [receipwatatusSuccessfulRLP] at h
  have h2 : r.Poswatate ≠ receipwatatusFailedRLP := by
    intro hc; rw [hc] at h; simp [receipwatatusFailedRLP] at h
  refine ⟨{ Receipt.fresh Log with Poswatate := r.Poswatate }, ?_, rfl⟩
  rw [henc]
  simp [Receipt.sewatatus, h1, h2, h, HashLength]

theorem statusEncoding_sewatatus_poswatate_witness :
    ∃ r1, (Receipt.fresh Unit).sewatatus
        (NewReceipt Unit (List.replicate 32 7) false 5).statusEncoding = .ok r1 ∧
      r1.Poswatate = (NewReceipt Unit (List.replicate 32 7) false 5).Poswatate :=
  statusEncoding_sewatatus_poswatate (NewReceipt Unit (List.replicate 32 7) false 5) (by decide)

/-- C3, as stated, fails: the status field of a failed receipt with an empty
post-state does not have length one. -/
theorem statusEncoding_failed_length_ne_one :
    (NewReceipt Unit [] true 0).Status = ReceipwatatusFailed ∧
    (NewReceipt Unit [] true 0).Poswatate = [] ∧
    ¬ ((NewReceipt Unit [] true 0).statusEncoding.length = 1) := by
  decide

/-- C3, amended: for a receipt with failed status and an empty post-state the
status field is the failed marker, which is the empty byte string. -/
theorem statusEncoding_failed (r : Receipt Log) (hs : r.Status = ReceipwatatusFailed)
    (hp : r.Poswatate.length = 0) :
    r.statusEncoding = receipwatatusFailedRLP ∧ r.statusEncoding = [] ∧
      r.statusEncoding.length = 0 := by
  simp [Receipt.statusEncoding, hs, hp, receipwatatusFailedRLP]

theorem statusEncoding_failed_witness :
    (NewReceipt Unit [] true 9).statusEncoding = receipwatatusFailedRLP ∧
    (NewReceipt Unit [] true 9).statusEncoding = [] ∧
    (NewReceipt Unit [] true 9).statusEncoding.length = 0 :=
  statusEncoding_failed (NewReceipt Unit [] true 9) (by decide) (by decide)

/-- C4: for a receipt with successful status and an empty post-state the status
field is the single byte 0x01, and it differs from the status field of every
failed receipt with an empty post-state. -/
theorem statusEncoding_successful (r : Receipt Log) (hs : r.Status = ReceipwatatusSuccessful)
    (hp : r.Poswatate.length = 0) :
    r.statusEncoding = [0x01] ∧
    ∀ f : Receipt Log, f.Status = ReceipwatatusFailed → f.Poswatate.length = 0 →
      r.statusEncoding ≠ f.statusEncoding := by
  have hne : r.Status ≠ ReceipwatatusFailed := by
    rw [hs]; decide
  have henc : r.statusEncoding = [0x01] := by
    simp [Receipt.statusEncoding, hp, hne, receipwatatusSuccessfulRLP]
  refine ⟨henc, ?_⟩
  intro f hfs hfp
  have hf : f.statusEncoding = [] := by
    simp [Receipt.statusEncoding, hfs, hfp, receipwatatusFailedRLP]
  rw [henc, hf]
  decide

theorem statusEncoding_successful_witness :
    (NewReceipt Unit [] false 9).statusEncoding = [0x01] ∧
    ∀ f : Receipt Unit, f.Status = ReceipwatatusFailed → f.Poswatate.length = 0 →
      (NewReceipt Unit [] false 9).statusEncoding ≠ f.statusEncoding :=
  statusEncoding_successful (NewReceipt Unit [] false 9) (by decide) (by decide)

theorem statusEncoding_empty_cases (q : Receipt Log) (hq : q.Poswatate.length = 0)
    (hqs : q.Status = ReceipwatatusFailed ∨ q.Status = ReceipwatatusSuccessful) :
    (q.Status = 0 ∧ q.statusEncoding = []) ∨ (q.Status = 1 ∧ q.statusEncoding = [0x01]) := by
  rcases hqs with h | h
  · left
    simp [Receipt.statusEncoding, hq, h, receipwatatusFailedRLP, ReceipwatatusFailed]
  · right
    simp [Receipt.statusEncoding, hq, h, receipwatatusSuccessfulRLP, ReceipwatatusFailed,
      ReceipwatatusSuccessful]

theorem statusEncoding_sewatatus_empty (r : Receipt Log) (hp : r.Poswatate.length = 0)
    (hs : r.Status = ReceipwatatusFailed ∨ r.Status = ReceipwatatusSuccessful) :
    ∃ r1, (Receipt.fresh Log).sewatatus r.statusEncoding = .ok r1 ∧
      r1.Status = r.Status ∧ r1.Poswatate = [] := by
  rcases statusEncoding_empty_cases r hp hs with ⟨h0, he⟩ | ⟨h1, he⟩
  · refine ⟨{ Receipt.fresh Log with Status := ReceipwatatusFailed }, ?_, ?_, rfl⟩
    · rw [he]; rfl
    · rw [h0]; rfl
  · refine ⟨{ Receipt.fresh Log with Status := ReceipwatatusSuccessful }, ?_, ?_, rfl⟩
    · rw [he]; rfl
    · rw [h1]; rfl

/-- C5: for a receipt with an empty post-state and status failed or successful,
decoding its encoded status field into a fresh receipt succeeds, restores the
status and leaves the post-state empty; two such receipts have the same status
exactly when their encoded status fields are the same bytes, and then the
fields differ in length. -/
theorem statusEncoding_sewatatus_status (r : Receipt Log) (hp : r.Poswatate.length = 0)
    (hs : r.Status = ReceipwatatusFailed ∨ r.Status = ReceipwatatusSuccessful) :
    (∃ r1, (Receipt.fresh Log).sewatatus r.statusEncoding = .ok r1 ∧
      r1.Status = r.Status ∧ r1.Poswatate = []) ∧
    ∀ q : Receipt Log, q.Poswatate.length = 0 →
      (q.Status = ReceipwatatusFailed ∨ q.Status = ReceipwatatusSuccessful) →
      ((r.Status = q.Status ↔ r.statusEncoding = q.statusEncoding) ∧
       (r.Status = q.Status ↔ r.statusEncoding.length = q.statusEncoding.length)) := by
  refine ⟨statusEncoding_sewatatus_empty r hp hs, ?_⟩
  intro q hq hqs
  rcases statusEncoding_empty_cases r hp hs with ⟨h0, he⟩ | ⟨h1, he⟩ <;>
    rcases statusEncoding_empty_cases q hq hqs with ⟨g0, ge⟩ | ⟨g1, ge⟩ <;>
    simp [*]

theorem statusEncoding_sewatatus_status_witness :
    (∃ r1, (Receipt.fresh Unit).sewatatus (NewReceipt Unit [] false 3).statusEncoding = .ok r1 ∧
      r1.Status = (NewReceipt Unit [] false 3).Status ∧ r1.Poswatate = []) ∧
    ∀ q : Receipt Unit, q.Poswatate.length = 0 →
      (q.Status = ReceipwatatusFailed ∨ q.Status = ReceipwatatusSuccessful) →
      (((NewReceipt Unit [] false 3).Status = q.Status ↔
          (NewReceipt Unit [] false 3).statusEncoding = q.statusEncoding) ∧
       ((NewReceipt Unit [] false 3).Status = q.Status ↔
          (NewReceipt Unit [] false 3).statusEncoding.length = q.statusEncoding.length)) :=
  statusEncoding_sewatatus_status (NewReceipt Unit [] false 3) (by decide) (by decide)

/-- C6: decode-then-encode is byte-exact: whenever decoding a status field b
into a fresh receipt succeeds, encoding the status field of the resulting
receipt gives back exactly b. -/
theorem sewatatus_statusEncoding (b : Bytes) (r1 : Receipt Log)
    (h : (Receipt.fresh Log).sewatatus b = .ok r1) : r1.statusEncoding = b := by
  rcases sewatatus_ok_cases _ _ _ h with ⟨hb, hr⟩ | ⟨hb, hr⟩ | ⟨_, hb2, hlen, hr⟩
  · subst hr; subst hb; rfl
  · subst hr; subst hb; rfl
  · subst hr
    have hne : b.length ≠ 0 := by
      rw [hlen]; decide
    simp [Receipt.statusEncoding, Receipt.fresh, hne]

theorem sewatatus_statusEncoding_witness :
    ({ Receipt.fresh Unit with Status := 1 } : Receipt Unit).statusEncoding = [0x01] :=
  sewatatus_statusEncoding [0x01] { Receipt.fresh Unit with Status := 1 } rfl

/-- C7, as stated, fails: with a codec that hands back the structure that was
written, the receipt made by NewReceipt from a 32-byte root and failed = false
has a 32-byte post-state and successful status, and its storage round trip
succeeds with a receipt whose status is failed, hence not equal to it. -/
theorem storageRoundTrip_status_lost :
    (NewReceipt Unit (List.replicate 32 0) false 0).Poswatate.length = 32 ∧
    (NewReceipt Unit (List.replicate 32 0) false 0).Status = ReceipwatatusSuccessful ∧
    storageRoundTrip Except.ok Except.ok (NewReceipt Unit (List.replicate 32 0) false 0) =
      .ok { NewReceipt Unit (List.replicate 32 0) false 0 with Status := ReceipwatatusFailed } ∧
    storageRoundTrip Except.ok Except.ok (NewReceipt Unit (List.replicate 32 0) false 0) ≠
      .ok (NewReceipt Unit (List.replicate 32 0) false 0) := by
  have hrun : storageRoundTrip Except.ok Except.ok (NewReceipt Unit (List.replicate 32 0) false 0) =
      .ok { NewReceipt Unit (List.replicate 32 0) false 0 with Status := ReceipwatatusFailed } :=
    rfl
  refine ⟨by decide, by decide, hrun, ?_⟩
  rw [hrun]
  intro h
  have hst := congrArg Receipt.Status (Except.ok.inj h)
  revert hst
  decide

/-- C7, amended: with a codec that hands back the structure that was written,
the storage round trip of a receipt r succeeds when the post-state of r is
empty or 32 bytes long; it yields r itself when the post-state of r is empty
and its status is failed or successful; when the post-state is 32 bytes long
it yields r with the status reset to failed (the zero value), every other
field being that of r; and when the post-state is empty, whatever the status,
it yields r with the status failed if it was failed and successful if it was
anything else. -/
theorem storageRoundTrip_spec {Stream : Type}
    (encode : receipwatorageRLP Log → Except String Stream)
    (decode : Stream → Except String (receipwatorageRLP Log))
    (hcodec : ∀ x, ∃ s, encode x = .ok s ∧ decode s = .ok x) (r : Receipt Log) :
    (r.Poswatate.length = 0 →
      (r.Status = ReceipwatatusFailed ∨ r.Status = ReceipwatatusSuccessful) →
      storageRoundTrip encode decode r = .ok r) ∧
    (r.Poswatate.length = 32 →
      storageRoundTrip encode decode r = .ok { r with Status := ReceipwatatusFailed }) ∧
    (r.Poswatate.length = 0 →
      storageRoundTrip encode decode r =
        .ok { r with Status := if r.Status = ReceipwatatusFailed then ReceipwatatusFailed
                               else ReceipwatatusSuccessful }) := by
  have run : ∀ r1, (Receipt.fresh Log).sewatatus r.statusEncoding = .ok r1 →
      storageRoundTrip encode decode r = .ok { r with Status := r1.Status,
                                                      Poswatate := r1.Poswatate } := by
    intro r1 h1
    obtain ⟨s, hs, hd⟩ := hcodec
      { PoswatateOrStatus := r.statusEncoding
        CumulativeGasUsed := r.CumulativeGasUsed
        Bloom := r.Bloom
        TxHash := r.TxHash
        ContractAddress := r.ContractAddress
        Logs := r.Logs.map id
        GasUsed := r.GasUsed }
    simp only [List.map_id] at hs hd
    simp only [storageRoundTrip, ReceiptForStorage.EncodeRLP, hs, ReceiptForStorage.DecodeRLP,
      hd, h1, List.map_id]
  refine ⟨?_, ?_, ?_⟩
  · intro hp hs
    obtain ⟨r1, h1, hst, hpo⟩ := statusEncoding_sewatatus_empty r hp hs
    rw [run r1 h1, hst, hpo]
    have : r.Poswatate = [] := List.length_eq_zero.mp hp
    cases r
    simp_all
  · intro hp
    have henc : r.statusEncoding = r.Poswatate := by
      simp [Receipt.statusEncoding, hp]
    have h1 : r.Poswatate ≠ receipwatatusSuccessfulRLP := by
      intro hc; rw [hc] at hp; simp [receipwatatusSuccessfulRLP] at hp
    have h2 : r.Poswatate ≠ receipwatatusFailedRLP := by
      intro hc; rw [hc] at hp; simp [receipwatatusFailedRLP] at hp
    have hdec : (Receipt.fresh Log).sewatatus r.statusEncoding =
        .ok { Receipt.fresh Log with Poswatate := r.Poswatate } := by
      rw [henc]
      simp [Receipt.sewatatus, h1, h2, hp, HashLength]
    rw [run _ hdec]
    rfl
  · intro hp
    have hnil : r.Poswatate = [] := List.length_eq_zero.mp hp
    by_cases hs : r.Status = ReceipwatatusFailed
    · have hdec : (Receipt.fresh Log).sewatatus r.statusEncoding =
          .ok { Receipt.fresh Log with Status := ReceipwatatusFailed } := by
        simp only [Receipt.statusEncoding, if_pos hp, if_pos hs]
        rfl
      rw [run _ hdec, if_pos hs]
      cases r
      simp_all [Receipt.fresh]
    · have hdec : (Receipt.fresh Log).sewatatus r.statusEncoding =
          .ok { Receipt.fresh Log with Status := ReceipwatatusSuccessful } := by
        simp only [Receipt.statusEncoding, if_pos hp, if_neg hs]
        rfl
      rw [run _ hdec, if_neg hs]
      cases r
      simp_all [Receipt.fresh]

theorem storageRoundTrip_spec_witness :
    storageRoundTrip Except.ok Except.ok (NewReceipt Unit [] false 7) =
      .ok (NewReceipt Unit [] false 7) ∧
    storageRoundTrip Except.ok Except.ok (NewReceipt Unit (List.replicate 32 3) false 7) =
      .ok { NewReceipt Unit (List.replicate 32 3) false 7 with Status := ReceipwatatusFailed } ∧
    storageRoundTrip Except.ok Except.ok { NewReceipt Unit [] false 7 with Status := 5 } =
      .ok { NewReceipt Unit [] false 7 with Status :=
              if (5 : Nat) = ReceipwatatusFailed then ReceipwatatusFailed
              else ReceipwatatusSuccessful } :=
  ⟨(storageRoundTrip_spec Except.ok Except.ok (fun x => ⟨x, rfl, rfl⟩)
      (NewReceipt Unit [] false 7)).1 (by decide) (by decide),
   (storageRoundTrip_spec Except.ok Except.ok (fun x => ⟨x, rfl, rfl⟩)
      (NewReceipt Unit (List.replicate 32 3) false 7)).2.1 (by decide),
   (storageRoundTrip_spec Except.ok Except.ok (fun x => ⟨x, rfl, rfl⟩)
      { NewReceipt Unit [] false 7 with Status := 5 }).2.2 (by decide)⟩

/-- C8: when the consensus decoder succeeds on a receiver r, the stream held a
structure dec whose status field is valid; the transaction hash, contract
address and gas used of r are unchanged, the cumulative gas, bloom and logs are
those of dec, and of status and post-state exactly one is written: the status
(successful for the marker 0x01, failed for the empty marker) with the
post-state left as it was, or the post-state (a field of 32 bytes) with the
status left as it was. -/
theorem DecodeRLP_frame {Stream : Type} (decode : Stream → Except String (receiptRLP Log))
    (r : Receipt Log) (s : Stream) (r1 : Receipt Log)
    (h : Receipt.DecodeRLP decode r s = .ok r1) :
    ∃ dec, decode s = .ok dec ∧
      r1.TxHash = r.TxHash ∧ r1.ContractAddress = r.ContractAddress ∧ r1.GasUsed = r.GasUsed ∧
      r1.CumulativeGasUsed = dec.CumulativeGasUsed ∧ r1.Bloom = dec.Bloom ∧ r1.Logs = dec.Logs ∧
      ((dec.PoswatateOrStatus = [0x01] ∧ r1.Status = ReceipwatatusSuccessful ∧
          r1.Poswatate = r.Poswatate) ∨
       (dec.PoswatateOrStatus = [] ∧ r1.Status = ReceipwatatusFailed ∧
          r1.Poswatate = r.Poswatate) ∨
       (dec.PoswatateOrStatus.length = 32 ∧ r1.Poswatate = dec.PoswatateOrStatus ∧
          r1.Status = r.Status)) := by
  unfold Receipt.DecodeRLP at h
  cases hd : decode s with
  | error err => rw [hd] at h; cases h
  | ok dec =>
    rw [hd] at h
    dsimp only at h
    cases hst : r.sewatatus dec.PoswatateOrStatus with
    | error err => rw [hst] at h; cases h
    | ok r2 =>
      rw [hst] at h
      dsimp only at h
      have hr1 := (Except.ok.inj h).symm
      subst hr1
      refine ⟨dec, rfl, ?_⟩
      rcases sewatatus_ok_cases _ _ _ hst with ⟨hb, hr⟩ | ⟨hb, hr⟩ | ⟨_, _, hlen, hr⟩
      · subst hr
        exact ⟨rfl, rfl, rfl, rfl, rfl, rfl, Or.inl ⟨hb, rfl, rfl⟩⟩
      · subst hr
        exact ⟨rfl, rfl, rfl, rfl, rfl, rfl, Or.inr (Or.inl ⟨hb, rfl, rfl⟩)⟩
      · subst hr
        exact ⟨rfl, rfl, rfl, rfl, rfl, rfl, Or.inr (Or.inr ⟨hlen, rfl, rfl⟩)⟩

theorem DecodeRLP_frame_witness :
    ∃ dec : receiptRLP Unit, Except.ok (⟨[0x01], 21000, FixedBytes.zero 256, [()]⟩ : receiptRLP Unit)
        = Except.ok (ε := String) dec ∧
      (NewReceipt Unit (List.replicate 32 9) true 4).TxHash =
        (NewReceipt Unit (List.replicate 32 9) true 4).TxHash ∧
      (NewReceipt Unit (List.replicate 32 9) true 4).ContractAddress =
        (NewReceipt Unit (List.replicate 32 9) true 4).ContractAddress ∧
      (NewReceipt Unit (List.replicate 32 9) true 4).GasUsed =
        (NewReceipt Unit (List.replicate 32 9) true 4).GasUsed ∧
      21000 = dec.CumulativeGasUsed ∧ FixedBytes.zero 256 = dec.Bloom ∧ [()] = dec.Logs ∧
      ((dec.PoswatateOrStatus = [0x01] ∧ 1 = ReceipwatatusSuccessful ∧
          List.replicate 32 9 = (NewReceipt Unit (List.replicate 32 9) true 4).Poswatate) ∨
       (dec.PoswatateOrStatus = [] ∧ 1 = ReceipwatatusFailed ∧
          List.replicate 32 9 = (NewReceipt Unit (List.replicate 32 9) true 4).Poswatate) ∨
       (dec.PoswatateOrStatus.length = 32 ∧ List.replicate 32 9 = dec.PoswatateOrStatus ∧
          1 = (NewReceipt Unit (List.replicate 32 9) true 4).Status)) :=
  DecodeRLP_frame Except.ok (NewReceipt Unit (List.replicate 32 9) true 4)
    ⟨[0x01], 21000, FixedBytes.zero 256, [()]⟩
    ⟨List.replicate 32 9, 1, 21000, FixedBytes.zero 256, [()], FixedBytes.zero 32,
      FixedBytes.zero 20, 0⟩ rfl

/-- C9: NewReceipt returns a receipt whose post-state holds the bytes of root,
whose cumulative gas is the given gas, whose status is failed when the flag is
true and successful otherwise, and whose bloom, logs, transaction hash,
contract address and gas used are zero values. -/
theorem NewReceipt_fields (root : Bytes) (failed : Bool) (gas : Nat) :
    (NewReceipt Log root failed gas).Poswatate = root ∧
    (NewReceipt Log root failed gas).CumulativeGasUsed = gas ∧
    (NewReceipt Log root failed gas).Status =
      (if failed = true then ReceipwatatusFailed else ReceipwatatusSuccessful) ∧
    (NewReceipt Log root failed gas).Bloom = FixedBytes.zero 256 ∧
    (NewReceipt Log root failed gas).Logs = [] ∧
    (NewReceipt Log root failed gas).TxHash = FixedBytes.zero 32 ∧
    (NewReceipt Log root failed gas).ContractAddress = FixedBytes.zero 20 ∧
    (NewReceipt Log root failed gas).GasUsed = 0 := by
  cases failed <;> exact ⟨rfl, rfl, rfl, rfl, rfl, rfl, rfl, rfl⟩

end ReceiptTheorems

/-! ## Theorems: chain-spec conversion -/

section GenesisTheorems

/-- Sequencing a step that may panic before a computation that never returns an
error keeps that property. -/
theorem bind_returns_spec {α β : Type} (x : Run β) (f : β → Run (Option α × Option String))
    (hf : ∀ b v, f b = .ok v → v.1.isSome = true ∧ v.2 = none) :
    ∀ v, (x >>= f) = .ok v → v.1.isSome = true ∧ v.2 = none := by
  intro v hv
  cases x with
  | error e => cases hv
  | ok b => exact hf b v hv

theorem pure_returns_spec {α : Type} (a : α) :
    ∀ v, (pure (some a, none) : Run (Option α × Option String)) = .ok v →
      v.1.isSome = true ∧ v.2 = none := by
  intro v hv
  cases hv
  exact ⟨rfl, rfl⟩

theorem newCppwatchainGenesisSpec_cases (env : Env) (network : String) (genesis : Genesis)
    (config : ChainConfig) (hc : genesis.Config = some config) :
    (config.watash = none →
      newCppwatchainGenesisSpec env network genesis = .ok (none, some errUnsupportedEngine)) ∧
    (config.watash ≠ none → ∀ v, newCppwatchainGenesisSpec env network genesis = .ok v →
      v.1.isSome = true ∧ v.2 = none) := by
  constructor
  · intro hw
    simp only [newCppwatchainGenesisSpec, hc, hw, pure_bind, if_true]
    rfl
  · intro hw
    simp only [newCppwatchainGenesisSpec, hc, hw, pure_bind, if_false]
    repeat (first
      | exact pure_returns_spec _
      | (refine bind_returns_spec _ _ ?_; intro _)
      | split)

theorem newParityChainSpec_cases (env : Env) (network : String) (genesis : Genesis)
    (bootnodes : List String) (config : ChainConfig) (hc : genesis.Config = some config) :
    (config.watash = none →
      newParityChainSpec env network genesis bootnodes =
        .ok (none, some errUnsupportedEngine)) ∧
    (config.watash ≠ none → ∀ v, newParityChainSpec env network genesis bootnodes = .ok v →
      v.1.isSome = true ∧ v.2 = none) := by
  constructor
  · intro hw
    simp only [newParityChainSpec, hc, hw, pure_bind, if_true]
    rfl
  · intro hw
    simp only [newParityChainSpec, hc, hw, pure_bind, if_false]
    repeat (first
      | exact pure_returns_spec _
      | (refine bind_returns_spec _ _ ?_; intro _)
      | split)

theorem newPywatchainGenesisSpec_cases (network : String) (genesis : Genesis)
    (config : ChainConfig) (hc : genesis.Config = some config) :
    (config.watash = none →
      newPywatchainGenesisSpec network genesis = .ok (none, some errUnsupportedEngine)) ∧
    (config.watash ≠ none → ∀ v, newPywatchainGenesisSpec network genesis = .ok v →
      v.1.isSome = true ∧ v.2 = none) := by
  constructor
  · intro hw
    simp only [newPywatchainGenesisSpec, hc, hw, pure_bind, if_true]
    rfl
  · intro hw
    simp only [newPywatchainGenesisSpec, hc, hw, pure_bind, if_false]
    exact pure_returns_spec _

/-- A result pair that carries an error, from a conversion that either returns
the engine error with a nil specification or a specification with no error. -/
theorem only_engine_error {α : Type} (r : Run (Option α × Option String)) (w : Option Unit)
    (h1 : w = none → r = .ok (none, some errUnsupportedEngine))
    (h2 : w ≠ none → ∀ v, r = .ok v → v.1.isSome = true ∧ v.2 = none)
    (spec : Option α) (err : String) (hr : r = .ok (spec, some err)) :
    err = "unsupported consensus engine" ∧ spec = none ∧ w = none := by
  by_cases hw : w = none
  · have h := h1 hw
    rw [h] at hr
    injection hr with hr
    injection hr with hs he
    injection he with he
    exact ⟨he.symm, hs.symm, hw⟩
  · have h := (h2 hw _ hr).2
    cases h

/-- C10: for a genesis with a non-nil chain configuration, each of the three
conversions returns a nil specification together with the error "unsupported
consensus engine" when the configuration has no proof-of-work engine, whatever
the other fields of the genesis are (nil fork blocks or missing accounts are
never reached); and whenever one of them returns an error, it is that error,
the specification is nil and the engine is absent. -/
theorem conversions_fail_fast (env : Env) (network : String) (genesis : Genesis)
    (bootnodes : List String) (config : ChainConfig) (hc : genesis.Config = some config) :
    (config.watash = none →
      newCppwatchainGenesisSpec env network genesis =
        .ok (none, some "unsupported consensus engine") ∧
      newParityChainSpec env network genesis bootnodes =
        .ok (none, some "unsupported consensus engine") ∧
      newPywatchainGenesisSpec network genesis =
        .ok (none, some "unsupported consensus engine")) ∧
    (∀ spec err, newCppwatchainGenesisSpec env network genesis = .ok (spec, some err) →
      err = "unsupported consensus engine" ∧ spec = none ∧ config.watash = none) ∧
    (∀ spec err, newParityChainSpec env network genesis bootnodes = .ok (spec, some err) →
      err = "unsupported consensus engine" ∧ spec = none ∧ config.watash = none) ∧
    (∀ spec err, newPywatchainGenesisSpec network genesis = .ok (spec, some err) →
      err = "unsupported consensus engine" ∧ spec = none ∧ config.watash = none) := by
  obtain ⟨c1, c2⟩ := newCppwatchainGenesisSpec_cases env network genesis config hc
  obtain ⟨p1, p2⟩ := newParityChainSpec_cases env network genesis bootnodes config hc
  obtain ⟨y1, y2⟩ := newPywatchainGenesisSpec_cases network genesis config hc
  refine ⟨fun hw => ⟨c1 hw, p1 hw, y1 hw⟩, ?_, ?_, ?_⟩
  · intro spec err hr
    exact only_engine_error _ _ c1 c2 spec err hr
  · intro spec err hr
    exact only_engine_error _ _ p1 p2 spec err hr
  · intro spec err hr
    exact only_engine_error _ _ y1 y2 spec err hr

theorem conversions_fail_fast_witness :
    newCppwatchainGenesisSpec sampleEnv "watnet" sampleGenesisNoEngine =
      .ok (none, some "unsupported consensus engine") ∧
    newParityChainSpec sampleEnv "watnet" sampleGenesisNoEngine ["enode://a"] =
      .ok (none, some "unsupported consensus engine") ∧
    newPywatchainGenesisSpec "watnet" sampleGenesisNoEngine =
      .ok (none, some "unsupported consensus engine") :=
  (conversions_fail_fast sampleEnv "watnet" sampleGenesisNoEngine ["enode://a"]
    { ChainId := none, HomesteadBlock := none, EIP150Block := none, EIP155Block := none,
      EIP158Block := none, ByzantiumBlock := none, watash := none } rfl).1 rfl

/-- On a proof-of-work genesis that prefunds the eight precompile addresses all
three conversions return a specification; without those accounts the Parity
and cpp conversions panic on the first builtin. -/
theorem conversions_sample_runs :
    returnsSpec (newCppwatchainGenesisSpec sampleEnv "watnet" (sampleGenesis precompileAddresses))
      = true ∧
    returnsSpec (newParityChainSpec sampleEnv "watnet" (sampleGenesis precompileAddresses) [])
      = true ∧
    returnsSpec (newPywatchainGenesisSpec "watnet" (sampleGenesis [])) = true ∧
    panics (newCppwatchainGenesisSpec sampleEnv "watnet" (sampleGenesis [])) = true ∧
    panics (newParityChainSpec sampleEnv "watnet" (sampleGenesis []) []) = true := by
  refine ⟨?_, ?_, ?_, ?_, ?_⟩ <;> decide

/-- A step that may panic, followed by a computation whose results satisfy a
property whatever the step returned, gives results that satisfy it. -/
theorem bind_post {α β : Type} (P : α → Prop) (x : Run β) (f : β → Run α)
    (hf : ∀ b, ∀ v, f b = .ok v → P v) : ∀ v, (x >>= f) = .ok v → P v := by
  intro v hv
  cases x with
  | error e => cases hv
  | ok b => exact hf b v hv

theorem paritySetBuiltin_funds (m : GoMap Address parityChainSpecAccount) (addr : Address)
    (builtin : parityChainSpecBuiltin) (m1 : GoMap Address parityChainSpecAccount)
    (h : paritySetBuiltin m addr builtin = .ok m1) (a : Address) :
    (m1 a).map parityFunds = (m a).map parityFunds := by
  unfold paritySetBuiltin at h
  cases hm : m addr with
  | none => rw [hm] at h; cases h
  | some account =>
    rw [hm] at h
    have h1 := (Except.ok.inj h).symm
    subst h1
    by_cases hk : a = addr
    · subst hk
      simp [hm, parityFunds]
    · simp [hk]

theorem cppSetPrecompiled_funds (m : GoMap Address cppwatchainGenesisSpecAccount)
    (addr : Address) (builtin : cppwatchainGenesisSpecBuiltin)
    (m1 : GoMap Address cppwatchainGenesisSpecAccount)
    (h : cppSetPrecompiled m addr builtin = .ok m1) (a : Address) :
    (m1 a).map cppFunds = (m a).map cppFunds := by
  unfold cppSetPrecompiled at h
  cases hm : m addr with
  | none => rw [hm] at h; cases h
  | some account =>
    rw [hm] at h
    have h1 := (Except.ok.inj h).symm
    subst h1
    by_cases hk : a = addr
    · subst hk
      simp [hm, cppFunds]
    · simp [hk]

/-- Attaching a builtin in front of a computation keeps the funds of every
account, so a property of the funds table carries over. -/
theorem paritySetBuiltin_bind {α : Type} (P : α → Prop)
    (alloc : Address → Option (Option Int × Nat))
    (m : GoMap Address parityChainSpecAccount) (addr : Address)
    (builtin : parityChainSpecBuiltin) (f : GoMap Address parityChainSpecAccount → Run α)
    (hm : ∀ a, (m a).map parityFunds = alloc a)
    (hf : ∀ m1, (∀ a, (m1 a).map parityFunds = alloc a) → ∀ v, f m1 = .ok v → P v) :
    ∀ v, (paritySetBuiltin m addr builtin >>= f) = .ok v → P v := by
  intro v hv
  cases hx : paritySetBuiltin m addr builtin with
  | error e => rw [hx] at hv; cases hv
  | ok m1 =>
    rw [hx] at hv
    exact hf m1 (fun a => (paritySetBuiltin_funds m addr builtin m1 hx a).trans (hm a)) v hv

theorem cppSetPrecompiled_bind {α : Type} (P : α → Prop)
    (alloc : Address → Option (Option Int × Nat))
    (m : GoMap Address cppwatchainGenesisSpecAccount) (addr : Address)
    (builtin : cppwatchainGenesisSpecBuiltin)
    (f : GoMap Address cppwatchainGenesisSpecAccount → Run α)
    (hm : ∀ a, (m a).map cppFunds = alloc a)
    (hf : ∀ m1, (∀ a, (m1 a).map cppFunds = alloc a) → ∀ v, f m1 = .ok v → P v) :
    ∀ v, (cppSetPrecompiled m addr builtin >>= f) = .ok v → P v := by
  intro v hv
  cases hx : cppSetPrecompiled m addr builtin with
  | error e => rw [hx] at hv; cases hv
  | ok m1 =>
    rw [hx] at hv
    exact hf m1 (fun a => (cppSetPrecompiled_funds m addr builtin m1 hx a).trans (hm a)) v hv

theorem newParityChainSpec_funds (env : Env) (network : String) (genesis : Genesis)
    (bootnodes : List String) :
    ∀ v, newParityChainSpec env network genesis bootnodes = .ok v →
      ∀ spec, v.1 = some spec →
        ∀ a, (spec.Accounts a).map parityFunds = (genesis.Alloc a).map genesisFunds := by
  cases hc : genesis.Config with
  | none =>
    intro v hv
    simp only [newParityChainSpec, hc] at hv
    cases hv
  | some config =>
  by_cases hw : config.watash = none
  · intro v hv spec hs
    simp only [newParityChainSpec, hc, hw, pure_bind, if_true] at hv
    cases hv
    cases hs
  · simp only [newParityChainSpec, hc, hw, pure_bind, if_false]
    repeat (first
      | (refine paritySetBuiltin_bind _ (fun a => (genesis.Alloc a).map genesisFunds) _ _ _ _
          (by first
            | assumption
            | (intro a; dsimp only; cases genesis.Alloc a <;> rfl)) ?_
         intro _ _)
      | (refine bind_post _ _ _ ?_; intro _)
      | split
      | (intro v hv spec hs
         cases hv
         cases hs
         assumption))

theorem newCppwatchainGenesisSpec_funds (env : Env) (network : String) (genesis : Genesis) :
    ∀ v, newCppwatchainGenesisSpec env network genesis = .ok v →
      ∀ spec, v.1 = some spec →
        ∀ a, (spec.Accounts a).map cppFunds = (genesis.Alloc a).map genesisFunds := by
  cases hc : genesis.Config with
  | none =>
    intro v hv
    simp only [newCppwatchainGenesisSpec, hc] at hv
    cases hv
  | some config =>
  by_cases hw : config.watash = none
  · intro v hv spec hs
    simp only [newCppwatchainGenesisSpec, hc, hw, pure_bind, if_true] at hv
    cases hv
    cases hs
  · simp only [newCppwatchainGenesisSpec, hc, hw, pure_bind, if_false]
    repeat (first
      | (refine cppSetPrecompiled_bind _ (fun a => (genesis.Alloc a).map genesisFunds) _ _ _ _
          (by first
            | assumption
            | (intro a; dsimp only; cases genesis.Alloc a <;> rfl)) ?_
         intro _ _)
      | (refine bind_post _ _ _ ?_; intro _)
      | split
      | (intro v hv spec hs
         cases hv
         cases hs
         assumption))

/-- Two optional records with the same funds are present together and agree on
balance and nonce. -/
theorem same_funds {A : Type} (fa : A → Option Int × Nat) (x : Option A)
    (y : Option GenesisAccount) (h : x.map fa = y.map genesisFunds) :
    x.isSome = y.isSome ∧
    (∀ acc, x = some acc → ∃ g, y = some g ∧ (fa acc).1 = g.Balance ∧ (fa acc).2 = g.Nonce) := by
  cases x with
  | none =>
    cases y with
    | none => exact ⟨rfl, fun acc hacc => by cases hacc⟩
    | some g => cases h
  | some acc0 =>
    cases y with
    | none => cases h
    | some g =>
      refine ⟨rfl, fun acc hacc => ⟨g, rfl, ?_, ?_⟩⟩
      · cases hacc
        exact congrArg Prod.fst (Option.some.inj h)
      · cases hacc
        exact congrArg Prod.snd (Option.some.inj h)

/-- C11: whenever the Parity conversion, respectively the cpp conversion,
returns a specification, an address has an account in the specification exactly
when it has one in the allocation of the genesis, and every account of the
specification carries the balance and the nonce of the allocation entry at the
same address: attaching the builtin definitions adds no account, drops none and
leaves balance and nonce as they were. -/
theorem accounts_pure_mapping (env : Env) (network : String) (genesis : Genesis)
    (bootnodes : List String) :
    (∀ spec err, newParityChainSpec env network genesis bootnodes = .ok (some spec, err) →
      (∀ a, (spec.Accounts a).isSome = (genesis.Alloc a).isSome) ∧
      (∀ a acc, spec.Accounts a = some acc →
        ∃ g, genesis.Alloc a = some g ∧ acc.Balance = g.Balance ∧ acc.Nonce = g.Nonce)) ∧
    (∀ spec err, newCppwatchainGenesisSpec env network genesis = .ok (some spec, err) →
      (∀ a, (spec.Accounts a).isSome = (genesis.Alloc a).isSome) ∧
      (∀ a acc, spec.Accounts a = some acc →
        ∃ g, genesis.Alloc a = some g ∧ acc.Balance = g.Balance ∧ acc.Nonce = g.Nonce)) := by
  constructor
  · intro spec err hr
    have hf := newParityChainSpec_funds env network genesis bootnodes _ hr spec rfl
    exact ⟨fun a => (same_funds parityFunds _ _ (hf a)).1,
      fun a acc hacc => (same_funds parityFunds _ _ (hf a)).2 acc hacc⟩
  · intro spec err hr
    have hf := newCppwatchainGenesisSpec_funds env network genesis _ hr spec rfl
    exact ⟨fun a => (same_funds cppFunds _ _ (hf a)).1,
      fun a acc hacc => (same_funds cppFunds _ _ (hf a)).2 acc hacc⟩

theorem accounts_pure_mapping_witness :
    ((∀ a, (sampleParitySpec.Accounts a).isSome =
        ((sampleGenesis precompileAddresses).Alloc a).isSome) ∧
     (∀ a acc, sampleParitySpec.Accounts a = some acc →
        ∃ g, (sampleGenesis precompileAddresses).Alloc a = some g ∧
          acc.Balance = g.Balance ∧ acc.Nonce = g.Nonce)) ∧
    ((∀ a, (sampleCppSpec.Accounts a).isSome =
        ((sampleGenesis precompileAddresses).Alloc a).isSome) ∧
     (∀ a acc, sampleCppSpec.Accounts a = some acc →
        ∃ g, (sampleGenesis precompileAddresses).Alloc a = some g ∧
          acc.Balance = g.Balance ∧ acc.Nonce = g.Nonce)) :=
  ⟨(accounts_pure_mapping sampleEnv "watnet" (sampleGenesis precompileAddresses) []).1
      sampleParitySpec none rfl,
   (accounts_pure_mapping sampleEnv "watnet" (sampleGenesis precompileAddresses) []).2
      sampleCppSpec none rfl⟩

end GenesisTheorems

/-! ## Theorems: node construction -/

section NodeTheorems

theorem NewNode_ok_inv (env : MobileEnv) (datadir : String) (config : Option NodeConfig)
    (node : Node) (h : NewNode env datadir config = .ok node) :
    ∃ genesis config1 stack1,
      node.conf = stackConfig env datadir (applyDefaults env config) ∧
      loadGenesis env (applyDefaults env config) = .ok (genesis, config1) ∧
      registerWatchain env config1 genesis [] = .ok stack1 ∧
      registerWhisper env config1 stack1 = .ok node.services := by
  unfold NewNode at h
  dsimp only at h
  split at h
  · cases h
  · split at h
    · cases h
    · rename_i genesis config1 hload
      split at h
      · cases h
      · rename_i stack1 hreg
        split at h
        · cases h
        · rename_i stack2 hwh
          have h1 := (Except.ok.inj h).symm
          subst h1
          exact ⟨genesis, config1, stack1, rfl, hload, hreg, hwh⟩

/-- The defaults replace a zero peer limit by 25 and an absent or empty list of
bootstrap nodes; every other field is the one given, or the default for a nil
configuration. -/
theorem applyDefaults_fields (env : MobileEnv) (config : Option NodeConfig) :
    (applyDefaults env config).MaxPeers =
      (if (config.getD (NewNodeConfig env)).MaxPeers = 0 then 25
       else (config.getD (NewNodeConfig env)).MaxPeers) ∧
    (applyDefaults env config).watchainEnabled =
      (config.getD (NewNodeConfig env)).watchainEnabled ∧
    (applyDefaults env config).watchainDatabaseCache =
      (config.getD (NewNodeConfig env)).watchainDatabaseCache ∧
    (applyDefaults env config).watchainNetworkID =
      (config.getD (NewNodeConfig env)).watchainNetworkID ∧
    (applyDefaults env config).watchainGenesis =
      (config.getD (NewNodeConfig env)).watchainGenesis := by
  cases config with
  | none =>
    simp only [applyDefaults, Option.getD]
    repeat' split
    all_goals simp_all [defaultNodeConfig, NewNodeConfig]
  | some c =>
    simp only [applyDefaults, Option.getD]
    repeat' split
    all_goals simp_all [defaultNodeConfig, NewNodeConfig]

/-- Loading the genesis changes nothing in the configuration but, for the test
network, the network identifier. -/
theorem loadGenesis_fields (env : MobileEnv) (config : NodeConfig) (genesis : Option Genesis)
    (config1 : NodeConfig) (h : loadGenesis env config = .ok (genesis, config1)) :
    config1.watchainEnabled = config.watchainEnabled ∧
    config1.watchainDatabaseCache = config.watchainDatabaseCache ∧
    config1.WhisperEnabled = config.WhisperEnabled ∧
    config1.watchainNewatats = config.watchainNewatats := by
  unfold loadGenesis at h
  repeat' split at h
  all_goals (cases h <;> exact ⟨rfl, rfl, rfl, rfl⟩)

theorem Register_ok (env : MobileEnv) (services : List ServiceConstructor)
    (c : ServiceConstructor) (out : List ServiceConstructor)
    (h : Register env services c = .ok out) : out = services ++ [c] := by
  unfold Register at h
  split at h
  · cases h
  · exact (Except.ok.inj h).symm

theorem lesConfigs_append (xs ys : List ServiceConstructor) :
    lesConfigs (xs ++ ys) = lesConfigs xs ++ lesConfigs ys := by
  induction xs with
  | nil => rfl
  | cons x xs ih =>
    cases x <;> simp [lesConfigs, ih]

theorem registerWatchain_les (env : MobileEnv) (config : NodeConfig) (genesis : Option Genesis)
    (out : List ServiceConstructor) (h : registerWatchain env config genesis [] = .ok out) :
    lesConfigs out =
      (if config.watchainEnabled = true then [lightConfig env config genesis] else []) := by
  unfold registerWatchain at h
  split at h
  · rename_i hen
    rw [if_pos hen]
    split at h
    · cases h
    · rename_i stack hreg
      have hs := Register_ok _ _ _ _ hreg
      subst hs
      split at h
      · split at h
        · cases h
        · rename_i stack2 hreg2
          have hs2 := Register_ok _ _ _ _ hreg2
          have h1 := (Except.ok.inj h).symm
          subst h1
          subst hs2
          rfl
      · have h1 := (Except.ok.inj h).symm
        subst h1
        rfl
  · rename_i hen
    rw [if_neg hen]
    have h1 := (Except.ok.inj h).symm
    subst h1
    rfl

theorem registerWhisper_les (env : MobileEnv) (config : NodeConfig)
    (stack out : List ServiceConstructor) (h : registerWhisper env config stack = .ok out) :
    lesConfigs out = lesConfigs stack := by
  unfold registerWhisper at h
  split at h
  · split at h
    · cases h
    · rename_i stack2 hreg
      have hs := Register_ok _ _ _ _ hreg
      have h1 := (Except.ok.inj h).symm
      subst h1
      subst hs
      rw [lesConfigs_append]
      simp [lesConfigs]
  · have h1 := (Except.ok.inj h).symm
    subst h1
    rfl

/-- The light clients of a node made by `NewNode`: one, built from the
configuration after defaults and genesis loading, when the watchain protocol is
enabled; none otherwise. -/
theorem NewNode_les (env : MobileEnv) (datadir : String) (config : Option NodeConfig)
    (node : Node) (h : NewNode env datadir config = .ok node) :
    ∃ genesis config1,
      loadGenesis env (applyDefaults env config) = .ok (genesis, config1) ∧
      lesConfigs node.services =
        (if (config.getD (NewNodeConfig env)).watchainEnabled = true then
          [lightConfig env config1 genesis] else []) := by
  obtain ⟨genesis, config1, stack1, _, hload, hreg, hwh⟩ := NewNode_ok_inv env datadir config node h
  refine ⟨genesis, config1, hload, ?_⟩
  rw [registerWhisper_les env config1 stack1 _ hwh, registerWatchain_les env config1 genesis _ hreg,
    (loadGenesis_fields env _ genesis config1 hload).1, (applyDefaults_fields env config).2.1]

theorem lightConfig_fields (env : MobileEnv) (config : NodeConfig) (genesis : Option Genesis) :
    (lightConfig env config genesis).SyncMode = env.LightSync ∧
    (lightConfig env config genesis).DatabaseCache = config.watchainDatabaseCache ∧
    (lightConfig env config genesis).NetworkId = uint64OfInt64 config.watchainNetworkID ∧
    (lightConfig env config genesis).Genesis = genesis :=
  ⟨rfl, rfl, rfl, rfl⟩

/-- C12, on the code: a peer limit of zero does not reach the P2P
configuration; for every configuration with MaxPeers = 0 on which NewNode
returns a node, the P2P configuration of the node has MaxPeers = 25, the
default, and not 0. -/
theorem NewNode_zero_MaxPeers (env : MobileEnv) (datadir : String) (config : NodeConfig)
    (node : Node) (hz : config.MaxPeers = 0)
    (h : NewNode env datadir (some config) = .ok node) :
    node.conf.P2P.MaxPeers = 25 ∧ node.conf.P2P.MaxPeers ≠ 0 := by
  obtain ⟨_, _, _, hconf, _, _, _⟩ := NewNode_ok_inv env datadir (some config) node h
  have hmax := (applyDefaults_fields env (some config)).1
  simp only [Option.getD, hz, if_true] at hmax
  have h25 : node.conf.P2P.MaxPeers = 25 := by
    rw [hconf]
    exact hmax
  exact ⟨h25, by rw [h25]; decide⟩

theorem NewNode_zero_MaxPeers_witness :
    (stackConfig sampleMobileEnv "/data"
        (applyDefaults sampleMobileEnv (some { MaxPeers := 0, watchainEnabled := true }))).P2P.MaxPeers
      = 25 ∧
    (stackConfig sampleMobileEnv "/data"
        (applyDefaults sampleMobileEnv (some { MaxPeers := 0, watchainEnabled := true }))).P2P.MaxPeers
      ≠ 0 :=
  NewNode_zero_MaxPeers sampleMobileEnv "/data" { MaxPeers := 0, watchainEnabled := true }
    ⟨stackConfig sampleMobileEnv "/data"
        (applyDefaults sampleMobileEnv (some { MaxPeers := 0, watchainEnabled := true })),
      [.les (lightConfig sampleMobileEnv
          (applyDefaults sampleMobileEnv (some { MaxPeers := 0, watchainEnabled := true })) none)]⟩
    rfl rfl

/-- C13, as stated, fails: with the watchain protocol enabled and a database
cache of 0 requested, NewNode returns a node whose single light client is
configured with a database cache of 0, which is less than 16. -/
theorem NewNode_cache_below_minimum :
    (NewNode sampleMobileEnv "/data"
        (some { MaxPeers := 25, watchainEnabled := true, watchainDatabaseCache := 0 })).map
      (fun n => (lesConfigs n.services).map fun c => c.DatabaseCache) = .ok [0] ∧
    ¬ ((16 : Int) ≤ 0) :=
  ⟨rfl, by decide⟩

/-- C13, amended: for every configuration with the watchain protocol enabled on
which NewNode returns a node, the node has exactly one light client and the
database cache in its configuration is the value of watchainDatabaseCache that
the caller set (the value 16 of the default configuration when the caller
passed nil), unchanged. -/
theorem NewNode_DatabaseCache (env : MobileEnv) (datadir : String) (config : Option NodeConfig)
    (node : Node) (h : NewNode env datadir config = .ok node)
    (hen : (config.getD (NewNodeConfig env)).watchainEnabled = true) :
    (∃ watConf, lesConfigs node.services = [watConf] ∧
      watConf.DatabaseCache = (config.getD (NewNodeConfig env)).watchainDatabaseCache) ∧
    (NewNodeConfig env).watchainDatabaseCache = 16 := by
  obtain ⟨genesis, config1, hload, hles⟩ := NewNode_les env datadir config node h
  rw [if_pos hen] at hles
  refine ⟨⟨_, hles, ?_⟩, rfl⟩
  rw [(lightConfig_fields env config1 genesis).2.1,
    (loadGenesis_fields env _ genesis config1 hload).2.1, (applyDefaults_fields env config).2.2.1]

theorem NewNode_DatabaseCache_witness :
    (∃ watConf, lesConfigs [ServiceConstructor.les (lightConfig sampleMobileEnv
          (applyDefaults sampleMobileEnv
            (some { MaxPeers := 25, watchainEnabled := true, watchainDatabaseCache := 8 }))
          none)] = [watConf] ∧
      watConf.DatabaseCache = 8) ∧
    (NewNodeConfig sampleMobileEnv).watchainDatabaseCache = 16 :=
  NewNode_DatabaseCache sampleMobileEnv "/data"
    (some { MaxPeers := 25, watchainEnabled := true, watchainDatabaseCache := 8 })
    ⟨stackConfig sampleMobileEnv "/data"
        (applyDefaults sampleMobileEnv
          (some { MaxPeers := 25, watchainEnabled := true, watchainDatabaseCache := 8 })),
      [.les (lightConfig sampleMobileEnv
          (applyDefaults sampleMobileEnv
            (some { MaxPeers := 25, watchainEnabled := true, watchainDatabaseCache := 8 }))
          none)]⟩
    rfl rfl

/-- C14, as stated, fails: on a configuration that does not enable the watchain
protocol NewNode returns a node on which no light client is registered. -/
theorem NewNode_without_light_client :
    (NewNode sampleMobileEnv "/data"
        (some { MaxPeers := 25, watchainEnabled := false, WhisperEnabled := true })).map
      (fun n => (n.services.map ServiceConstructor.isLes, (lesConfigs n.services).length))
      = .ok ([false], 0) :=
  rfl

/-- C14, amended: the constructor of the full node returns an error and no
service, with no database opened, when the sync mode is LightSync (the error
"can't run wat.watchain in light sync mode, use les.Lightwatchain") or is not
valid; and whenever NewNode returns a node, the node has one light client,
configured with SyncMode = LightSync, if the (defaulted) configuration enables
the watchain protocol, and no light client otherwise. -/
theorem variants_selected_at_startup {Db Service : Type} (LightSync : Int) (IsValid : Int → Bool)
    (openDatabase : String → Int → Int → Except String Db)
    (assemble : watConfig → Db → Except String Service) (config : watConfig)
    (env : MobileEnv) (datadir : String) (nodeConfig : Option NodeConfig) :
    (config.SyncMode = LightSync →
      New LightSync IsValid openDatabase assemble config =
        (.error "can't run wat.watchain in light sync mode, use les.Lightwatchain", [])) ∧
    (IsValid config.SyncMode = false →
      New LightSync IsValid openDatabase assemble config =
        (.error (if config.SyncMode = LightSync then
            "can't run wat.watchain in light sync mode, use les.Lightwatchain"
          else "invalid sync mode " ++ toString config.SyncMode), [])) ∧
    (∀ node, NewNode env datadir nodeConfig = .ok node →
      ((nodeConfig.getD (NewNodeConfig env)).watchainEnabled = true →
        ∃ watConf, lesConfigs node.services = [watConf] ∧ watConf.SyncMode = env.LightSync) ∧
      ((nodeConfig.getD (NewNodeConfig env)).watchainEnabled = false →
        lesConfigs node.services = [])) := by
  refine ⟨?_, ?_, ?_⟩
  · intro hl
    simp [New, hl]
  · intro hv
    by_cases hl : config.SyncMode = LightSync
    · simp [New, hl]
    · simp [New, hl, hv]
  · intro node h
    obtain ⟨genesis, config1, _, hles⟩ := NewNode_les env datadir nodeConfig node h
    constructor
    · intro hen
      rw [if_pos hen] at hles
      exact ⟨_, hles, rfl⟩
    · intro hen
      rw [hen] at hles
      exact hles

theorem variants_selected_at_startup_witness :
    @New Unit Unit 2 (fun m => decide (0 ≤ m ∧ m ≤ 2))
        (fun _ _ _ => .ok ()) (fun _ _ => .ok ()) { SyncMode := 2 } =
      (.error "can't run wat.watchain in light sync mode, use les.Lightwatchain", []) ∧
    @New Unit Unit 2 (fun m => decide (0 ≤ m ∧ m ≤ 2))
        (fun _ _ _ => .ok ()) (fun _ _ => .ok ()) { SyncMode := 7 } =
      (.error "invalid sync mode 7", []) ∧
    (∃ watConf, lesConfigs [ServiceConstructor.les (lightConfig sampleMobileEnv
          (applyDefaults sampleMobileEnv (some { MaxPeers := 25, watchainEnabled := true }))
          none)] = [watConf] ∧
      watConf.SyncMode = sampleMobileEnv.LightSync) :=
  ⟨(@variants_selected_at_startup Unit Unit 2 (fun m => decide (0 ≤ m ∧ m ≤ 2))
      (fun _ _ _ => .ok ()) (fun _ _ => .ok ()) { SyncMode := 2 } sampleMobileEnv "/data" none).1 rfl,
   (@variants_selected_at_startup Unit Unit 2 (fun m => decide (0 ≤ m ∧ m ≤ 2))
      (fun _ _ _ => .ok ()) (fun _ _ => .ok ()) { SyncMode := 7 } sampleMobileEnv "/data" none).2.1
      (by decide),
   ((@variants_selected_at_startup Unit Unit 2
      (fun m => decide (0 ≤ m ∧ m ≤ 2))
      (fun _ _ _ => .ok ()) (fun _ _ => .ok ()) { SyncMode := 2 } sampleMobileEnv "/data"
      (some { MaxPeers := 25, watchainEnabled := true })).2.2
      ⟨stackConfig sampleMobileEnv "/data"
          (applyDefaults sampleMobileEnv (some { MaxPeers := 25, watchainEnabled := true })),
        [.les (lightConfig sampleMobileEnv
          (applyDefaults sampleMobileEnv (some { MaxPeers := 25, watchainEnabled := true }))
          none)]⟩ rfl).1 rfl⟩

end NodeTheorems

/-! ## Theorems: bloom filter servicing -/

section BloomTheorems

theorem map_const_eq_replicate {α : Type} (n : Nat) (w : α) :
    (List.range n).map (fun _ => w) = List.replicate n w := by
  apply List.ext_getElem
  · simp
  · intro i h1 h2
    simp

theorem replicate_eq_replicate_iff {α : Type} (n m : Nat) (a b : α) :
    List.replicate n a = List.replicate m b ↔ n = m ∧ (n = 0 ∨ a = b) := by
  constructor
  · intro h
    have hlen : n = m := by
      have := congrArg List.length h
      simpa using this
    subst hlen
    refine ⟨rfl, ?_⟩
    cases n with
    | zero => exact Or.inl rfl
    | succ n =>
      right
      simp only [List.replicate_succ, List.cons.injEq] at h
      exact h.1
  · rintro ⟨hn, h0 | hab⟩
    · subst hn
      subst h0
      rfl
    · rw [hn, hab]

/-- C15, as stated, fails: the two backends do not start identical worker
sets.  Each service makes its own request channel (les/backend.go line 107,
tst/backend.go line 134); with the channels told apart as 0 and 1, and even
with the same constants 3, 16 and 0 in both packages, the three calls started
by the light backend pull from channel 0 and those of the full backend from
channel 1. -/
theorem ServiceFilter_sets_differ :
    @LesApiBackend.ServiceFilter Unit Unit Nat ⟨3, 16, 0⟩ ⟨0⟩ () () =
      [⟨(), 16, 0, 0⟩, ⟨(), 16, 0, 0⟩, ⟨(), 16, 0, 0⟩] ∧
    @watApiBackend.ServiceFilter Unit Unit Nat ⟨3, 16, 0⟩ ⟨1⟩ () () =
      [⟨(), 16, 0, 1⟩, ⟨(), 16, 0, 1⟩, ⟨(), 16, 0, 1⟩] ∧
    @LesApiBackend.ServiceFilter Unit Unit Nat ⟨3, 16, 0⟩ ⟨0⟩ () () ≠
      @watApiBackend.ServiceFilter Unit Unit Nat ⟨3, 16, 0⟩ ⟨1⟩ () () := by
  decide

/-- C15, amended: in both backends every call of ServiceFilter starts exactly
bloomFilterThreads calls of Multiplex, each on the session given, with the
batch and wait constants of the package and the request channel of the
backend; the number of calls is the constant whatever the session and the
context are.  The worker sets of the two backends, each with the constants of
its own package and the channel of its own service, are identical exactly when
the thread counts agree and, unless that count is zero, the batch, the wait
and the channel agree. -/
theorem ServiceFilter_fixed_pool {Ctx Session Chan : Type} (kl kw : BloomConstants)
    (bl : LesApiBackend Chan) (bw : watApiBackend Chan) (ctx ctx2 : Ctx)
    (session session2 : Session) :
    LesApiBackend.ServiceFilter kl bl ctx session =
      List.replicate kl.bloomFilterThreads
        ⟨session, kl.bloomRetrievalBatch, kl.bloomRetrievalWait, bl.bloomRequests⟩ ∧
    watApiBackend.ServiceFilter kw bw ctx session =
      List.replicate kw.bloomFilterThreads
        ⟨session, kw.bloomRetrievalBatch, kw.bloomRetrievalWait, bw.bloomRequests⟩ ∧
    (LesApiBackend.ServiceFilter kl bl ctx session).length = kl.bloomFilterThreads ∧
    (watApiBackend.ServiceFilter kw bw ctx session).length = kw.bloomFilterThreads ∧
    (LesApiBackend.ServiceFilter kl bl ctx2 session2).length =
      (LesApiBackend.ServiceFilter kl bl ctx session).length ∧
    (watApiBackend.ServiceFilter kw bw ctx2 session2).length =
      (watApiBackend.ServiceFilter kw bw ctx session).length ∧
    (LesApiBackend.ServiceFilter kl bl ctx session =
        watApiBackend.ServiceFilter kw bw ctx session ↔
      kl.bloomFilterThreads = kw.bloomFilterThreads ∧
      (kl.bloomFilterThreads = 0 ∨
        (kl.bloomRetrievalBatch = kw.bloomRetrievalBatch ∧
         kl.bloomRetrievalWait = kw.bloomRetrievalWait ∧
         bl.bloomRequests = bw.bloomRequests))) := by
  refine ⟨map_const_eq_replicate _ _, map_const_eq_replicate _ _, ?_, ?_, ?_, ?_, ?_⟩
  · simp [LesApiBackend.ServiceFilter]
  · simp [watApiBackend.ServiceFilter]
  · simp [LesApiBackend.ServiceFilter]
  · simp [watApiBackend.ServiceFilter]
  · simp only [LesApiBackend.ServiceFilter, watApiBackend.ServiceFilter,
      map_const_eq_replicate, replicate_eq_replicate_iff, MultiplexCall.mk.injEq, true_and]

end BloomTheorems

/-! ## Theorems: Whisper topics -/

section TopicTheorems

theorem topic_eq_mk4 (t : TopicType) : ∃ a b c d, t = TopicType.mk4 a b c d := by
  obtain ⟨data, hlen⟩ := t
  rcases data with _ | ⟨a, _ | ⟨b, _ | ⟨c, _ | ⟨d, _ | ⟨e, rest⟩⟩⟩⟩⟩ <;>
    simp [TopicLength] at hlen
  exact ⟨a, b, c, d, rfl⟩

/-- C16: for every byte slice b, BytesToTopic b has four bytes, the first four
bytes of b followed by zeros: byte i is b[i] for i below both the length of b
and 4, and 0 at the remaining positions; the table of the test holds. -/
theorem BytesToTopic_bytes (b : Bytes) (i : Fin 4) :
    (BytesToTopic b).data.length = 4 ∧
    (BytesToTopic b).data = b.take 4 ++ List.replicate (4 - min b.length 4) 0 ∧
    (BytesToTopic b).data.getD i.val 0 =
      (if i.val < min b.length 4 then b.getD i.val 0 else 0) ∧
    TestBytesToTopic = true := by
  refine ⟨(BytesToTopic b).size_eq, ?_, ?_, by decide⟩
  · simp [BytesToTopic, TopicLength, Nat.min_comm]
  · rcases b with _ | ⟨x0, _ | ⟨x1, _ | ⟨x2, _ | ⟨x3, rest⟩⟩⟩⟩ <;>
      fin_cases i <;> simp [BytesToTopic, TopicLength, List.getD]

theorem hexDigit_facts (n : Fin 16) :
    hexNibble (hexDigit n.val) = some n.val ∧
    hexDigit n.val ∈ "0123456789abcdef".data ∧
    hexDigit n.val ≠ jsonQuote ∧ hexDigit n.val ≠ jsonEscape := by
  revert n
  decide

theorem hexDigit_hi (x : Byte) :
    hexNibble (hexDigit (x.val / 16)) = some (x.val / 16) ∧
    hexDigit (x.val / 16) ∈ "0123456789abcdef".data ∧
    hexDigit (x.val / 16) ≠ jsonQuote ∧ hexDigit (x.val / 16) ≠ jsonEscape :=
  hexDigit_facts ⟨x.val / 16, by omega⟩

theorem hexDigit_lo (x : Byte) :
    hexNibble (hexDigit (x.val % 16)) = some (x.val % 16) ∧
    hexDigit (x.val % 16) ∈ "0123456789abcdef".data ∧
    hexDigit (x.val % 16) ≠ jsonQuote ∧ hexDigit (x.val % 16) ≠ jsonEscape :=
  hexDigit_facts ⟨x.val % 16, by omega⟩

theorem byte_of_digits (x : Byte) : (Fin.ofNat (16 * (x.val / 16) + x.val % 16) : Byte) = x := by
  apply Fin.ext
  have h : 16 * (x.val / 16) + x.val % 16 = x.val := Nat.div_add_mod x.val 16
  simp only [Fin.ofNat, h]
  exact Nat.mod_eq_of_lt x.isLt

/-- C17: for every topic t, t.String() has ten characters: 0x followed, for
each of the four bytes in order, by its high and its low hexadecimal digit,
all of them among 0123456789abcdef; the topic 00 7f 80 ff gives 0x007f80ff and
the table of the test holds. -/
theorem String_hex (a b c d : Byte) :
    (TopicType.mk4 a b c d).String =
      String.mk ['0', 'x', hexDigit (a.val / 16), hexDigit (a.val % 16),
        hexDigit (b.val / 16), hexDigit (b.val % 16), hexDigit (c.val / 16),
        hexDigit (c.val % 16), hexDigit (d.val / 16), hexDigit (d.val % 16)] ∧
    (TopicType.mk4 a b c d).String.length = 10 ∧
    (∀ ch ∈ (TopicType.mk4 a b c d).String.data.drop 2, ch ∈ "0123456789abcdef".data) ∧
    (∀ t : TopicType, ∃ a b c d, t = TopicType.mk4 a b c d) ∧
    (TopicType.mk4 0x00 0x7f 0x80 0xff).String = "0x007f80ff" ∧
    TestTopicString = true := by
  refine ⟨rfl, rfl, ?_, topic_eq_mk4, by decide, by decide⟩
  intro ch hch
  simp only [TopicType.String, TopicType.mk4, hexChars, List.flatMap_cons, List.flatMap_nil,
    List.drop, List.cons_append, List.nil_append, List.mem_cons, List.mem_nil_iff,
    or_false] at hch
  rcases hch with h | h | h | h | h | h | h | h <;> subst h
  · exact (hexDigit_hi a).2.1
  · exact (hexDigit_lo a).2.1
  · exact (hexDigit_hi b).2.1
  · exact (hexDigit_lo b).2.1
  · exact (hexDigit_hi c).2.1
  · exact (hexDigit_lo c).2.1
  · exact (hexDigit_hi d).2.1
  · exact (hexDigit_lo d).2.1

theorem jsonContent_jsonString (content : List Char) (h1 : jsonQuote ∉ content)
    (h2 : jsonEscape ∉ content) : jsonContent (jsonString content) = some content := by
  simp [jsonContent, jsonString, h1, h2]

theorem jsonContent_jsonString_some (content c : List Char)
    (h : jsonContent (jsonString content) = some c) : c = content := by
  simp only [jsonContent, jsonString] at h
  split_ifs at h with hc
  simpa using h.symm

theorem UnmarshalText_String (a b c d : Byte) :
    UnmarshalText (TopicType.mk4 a b c d).String.data = .ok (TopicType.mk4 a b c d) := by
  have e : (TopicType.mk4 a b c d).String.data =
      ['0', 'x', hexDigit (a.val / 16), hexDigit (a.val % 16),
        hexDigit (b.val / 16), hexDigit (b.val % 16), hexDigit (c.val / 16),
        hexDigit (c.val % 16), hexDigit (d.val / 16), hexDigit (d.val % 16)] := rfl
  rw [e]
  simp [UnmarshalText, TopicLength, (hexDigit_hi a).1, (hexDigit_lo a).1, (hexDigit_hi b).1,
    (hexDigit_lo b).1, (hexDigit_hi c).1, (hexDigit_lo c).1, (hexDigit_hi d).1,
    (hexDigit_lo d).1, byteAt, byte_of_digits]

/-- What a successful unmarshalling says about the text: it has ten characters,
starts with 0x, continues with hexadecimal digits only, and its digits give the
bytes of the topic. -/
theorem UnmarshalJSON_ok (content : List Char) (u : TopicType)
    (hu : UnmarshalJSON (jsonString content) = .ok u) :
    content.length = 10 ∧
    (content.take 2 = ['0', 'x'] ∧ ∀ c ∈ content.drop 2, (hexNibble c).isSome = true) ∧
    u = TopicType.mk4 (byteAt ((content.drop 2).map fun c => (hexNibble c).getD 0) 0)
      (byteAt ((content.drop 2).map fun c => (hexNibble c).getD 0) 1)
      (byteAt ((content.drop 2).map fun c => (hexNibble c).getD 0) 2)
      (byteAt ((content.drop 2).map fun c => (hexNibble c).getD 0) 3) := by
  unfold UnmarshalJSON at hu
  cases hc : jsonContent (jsonString content) with
  | none => rw [hc] at hu; cases hu
  | some c =>
    rw [hc] at hu
    have hcc := jsonContent_jsonString_some _ _ hc
    subst hcc
    simp only [UnmarshalText] at hu
    split_ifs at hu with h1 h2 h3 h4
    have hu1 := (Except.ok.inj hu).symm
    simp only [ne_eq, not_not, TopicLength, List.length_drop] at h1 h2 h3
    simp only [not_not, List.all_eq_true] at h4
    exact ⟨by omega, ⟨h1, h4⟩, hu1⟩

/-- C18: for every topic t, unmarshalling the JSON string whose content is
t.String() succeeds and yields t; whenever a text unmarshals, byte i of the
topic is written by its digits 2i and 2i+1, in that order; the tables of the
good and the ugly test hold, and 0x00000001 decodes to 00 00 00 01, which is
not the topic 01 00 00 00. -/
theorem UnmarshalJSON_String (t : TopicType) :
    UnmarshalJSON (jsonString t.String.data) = .ok t ∧
    (∀ (content : List Char) (u : TopicType), UnmarshalJSON (jsonString content) = .ok u →
      ∀ i : Fin 4, u.data.getD i.val 0 =
        Fin.ofNat (16 * (hexNibble (content.getD (2 + 2 * i.val) '0')).getD 0 +
          (hexNibble (content.getD (2 + 2 * i.val + 1) '0')).getD 0)) ∧
    UnmarshalJSON (jsonString "0x00000001".data) = .ok (TopicType.mk4 0x00 0x00 0x00 0x01) ∧
    TopicType.mk4 0x00 0x00 0x00 0x01 ≠ TopicType.mk4 0x01 0x00 0x00 0x00 ∧
    TestUnmarshalTestsGood = true ∧ TestUnmarshalTestsUgly = true := by
  refine ⟨?_, ?_, rfl, by decide, by decide, by decide⟩
  · obtain ⟨a, b, c, d, rfl⟩ := topic_eq_mk4 t
    have hq : jsonQuote ∉ (TopicType.mk4 a b c d).String.data := by
      have e : (TopicType.mk4 a b c d).String.data =
        ['0', 'x', hexDigit (a.val / 16), hexDigit (a.val % 16),
          hexDigit (b.val / 16), hexDigit (b.val % 16), hexDigit (c.val / 16),
          hexDigit (c.val % 16), hexDigit (d.val / 16), hexDigit (d.val % 16)] := rfl
      rw [e]
      simp only [List.mem_cons, List.mem_nil_iff, or_false, not_or]
      exact ⟨by decide, by decide, Ne.symm (hexDigit_hi a).2.2.1, Ne.symm (hexDigit_lo a).2.2.1,
        Ne.symm (hexDigit_hi b).2.2.1, Ne.symm (hexDigit_lo b).2.2.1,
        Ne.symm (hexDigit_hi c).2.2.1, Ne.symm (hexDigit_lo c).2.2.1,
        Ne.symm (hexDigit_hi d).2.2.1, Ne.symm (hexDigit_lo d).2.2.1⟩
    have he : jsonEscape ∉ (TopicType.mk4 a b c d).String.data := by
      have e : (TopicType.mk4 a b c d).String.data =
        ['0', 'x', hexDigit (a.val / 16), hexDigit (a.val % 16),
          hexDigit (b.val / 16), hexDigit (b.val % 16), hexDigit (c.val / 16),
          hexDigit (c.val % 16), hexDigit (d.val / 16), hexDigit (d.val % 16)] := rfl
      rw [e]
      simp only [List.mem_cons, List.mem_nil_iff, or_false, not_or]
      exact ⟨by decide, by decide, Ne.symm (hexDigit_hi a).2.2.2, Ne.symm (hexDigit_lo a).2.2.2,
        Ne.symm (hexDigit_hi b).2.2.2, Ne.symm (hexDigit_lo b).2.2.2,
        Ne.symm (hexDigit_hi c).2.2.2, Ne.symm (hexDigit_lo c).2.2.2,
        Ne.symm (hexDigit_hi d).2.2.2, Ne.symm (hexDigit_lo d).2.2.2⟩
    simp only [UnmarshalJSON, jsonContent_jsonString _ hq he]
    exact UnmarshalText_String a b c d
  · intro content u hu i
    obtain ⟨hlen, _, htop⟩ := UnmarshalJSON_ok content u hu
    rw [htop]
    rcases content with _ | ⟨c0, _ | ⟨c1, _ | ⟨r0, _ | ⟨r1, _ | ⟨r2, _ | ⟨r3, _ | ⟨r4,
      _ | ⟨r5, _ | ⟨r6, _ | ⟨r7, _ | ⟨r8, rest⟩⟩⟩⟩⟩⟩⟩⟩⟩⟩⟩
    all_goals first
      | (exfalso
         simp only [List.length_cons, List.length_nil] at hlen
         omega)
      | skip
    fin_cases i <;> simp [TopicType.mk4, byteAt]

theorem UnmarshalJSON_String_witness :
    UnmarshalJSON (jsonString (TopicType.mk4 0x00 0x7f 0x80 0xff).String.data) =
      .ok (TopicType.mk4 0x00 0x7f 0x80 0xff) ∧
    ∀ i : Fin 4, (TopicType.mk4 0x00 0x7f 0x80 0xff).data.getD i.val 0 =
      Fin.ofNat (16 * (hexNibble ("0x007f80ff".data.getD (2 + 2 * i.val) '0')).getD 0 +
        (hexNibble ("0x007f80ff".data.getD (2 + 2 * i.val + 1) '0')).getD 0) :=
  ⟨(UnmarshalJSON_String (TopicType.mk4 0x00 0x7f 0x80 0xff)).1,
   (UnmarshalJSON_String (TopicType.mk4 0x00 0x7f 0x80 0xff)).2.1 "0x007f80ff".data
      (TopicType.mk4 0x00 0x7f 0x80 0xff) rfl⟩

/-- C19: for every text that is not the prefix 0x followed by exactly eight
hexadecimal digits, unmarshalling the JSON string with that content returns an
error; the table of the bad test holds. -/
theorem UnmarshalJSON_rejects (content : List Char) (h : ¬ wellFormedTopicText content) :
    (∃ err, UnmarshalJSON (jsonString content) = .error err) ∧
    TestUnmarshalTestsBad = true := by
  refine ⟨?_, by decide⟩
  cases hr : UnmarshalJSON (jsonString content) with
  | error err => exact ⟨err, rfl⟩
  | ok u =>
    exfalso
    apply h
    obtain ⟨hlen, ⟨hpre, hdig⟩, _⟩ := UnmarshalJSON_ok content u hr
    refine ⟨content.drop 2, ?_, ?_, hdig⟩
    · have hsplit := (List.take_append_drop 2 content).symm
      rw [hpre] at hsplit
      exact hsplit
    · rw [List.length_drop, hlen]

theorem UnmarshalJSON_rejects_witness :
    (∃ err, UnmarshalJSON (jsonString "0x000000".data) = .error err) ∧
    TestUnmarshalTestsBad = true :=
  UnmarshalJSON_rejects "0x000000".data (by
    rintro ⟨digits, h1, h2, _⟩
    have hlen : ("0x000000".data).length = digits.length + 2 := congrArg List.length h1
    have h6 : ("0x000000".data).length = 8 := rfl
    rw [h6, h2] at hlen
    exact absurd hlen (by decide))

end TopicTheorems

/-! ## Theorems: the memory store -/

section MemStoreTheorems

/-- C20: for every key, and so for ZeroKey, Get on a freshly created store
returns the error notFound, whatever the capacity; a store that holds a chunk
under a key returns that chunk. -/
theorem NewMemStore_Get_notFound (Chunk : Type) (capacity : Nat) (key : Bytes) (chunk : Chunk) :
    (NewMemStore Chunk capacity).Get key = .error notFound ∧
    (NewMemStore Chunk capacity).Get ZeroKey = .error notFound ∧
    (⟨capacity, [(key, chunk)]⟩ : MemStore Chunk).Get key = .ok chunk := by
  refine ⟨rfl, rfl, ?_⟩
  simp [MemStore.Get, List.lookup]

end MemStoreTheorems

/-! ## Theorems: the test network in NewNode -/

section TestnetTheorems

/-- The genesis block of `NewNode`, case by case. -/
theorem loadGenesis_cases (env : MobileEnv) (config : NodeConfig) :
    loadGenesis env config =
      (if config.watchainGenesis = "" then .ok (none, config)
       else
        match env.unmarshalGenesis config.watchainGenesis with
        | .error err => .error ("invalid genesis spec: " ++ err)
        | .ok genesis =>
          if config.watchainGenesis = env.TestnetGenesis then
            .ok (some { genesis with Config := some env.TestnetChainConfig },
              { config with
                watchainNetworkID :=
                  if config.watchainNetworkID = 1 then 3 else config.watchainNetworkID })
          else .ok (some genesis, config)) := by
  unfold loadGenesis
  by_cases h0 : config.watchainGenesis = ""
  · simp [h0]
  · simp only [ne_eq, h0, not_false_eq_true, if_true, if_false]
    cases env.unmarshalGenesis config.watchainGenesis with
    | error err => rfl
    | ok genesis =>
      dsimp only
      by_cases ht : config.watchainGenesis = env.TestnetGenesis
      · by_cases h1 : config.watchainNetworkID = 1
        · simp only [if_pos ht, if_pos h1]
        · simp only [if_pos ht, if_neg h1]
      · simp only [if_neg ht]

theorem applyDefaults_genesis (env : MobileEnv) (config : NodeConfig) :
    (applyDefaults env (some config)).watchainGenesis = config.watchainGenesis ∧
    (applyDefaults env (some config)).watchainNetworkID = config.watchainNetworkID ∧
    (applyDefaults env (some config)).watchainEnabled = config.watchainEnabled :=
  ⟨(applyDefaults_fields env (some config)).2.2.2.2, (applyDefaults_fields env (some config)).2.2.2.1,
    (applyDefaults_fields env (some config)).2.1⟩

theorem NewNode_unparsable (env : MobileEnv) (datadir : String) (config : NodeConfig)
    (err : String) (hne : config.watchainGenesis ≠ "")
    (hp : env.unmarshalGenesis config.watchainGenesis = .error err) :
    (∃ e, NewNode env datadir (some config) = .error e) ∧
    (env.nodeNew (stackConfig env datadir (applyDefaults env (some config))) = none →
      NewNode env datadir (some config) = .error ("invalid genesis spec: " ++ err)) := by
  have hl : loadGenesis env (applyDefaults env (some config)) =
      .error ("invalid genesis spec: " ++ err) := by
    rw [loadGenesis_cases, (applyDefaults_genesis env config).1, if_neg hne, hp]
  constructor
  · cases hn : env.nodeNew (stackConfig env datadir (applyDefaults env (some config))) with
    | some e => exact ⟨e, by simp only [NewNode, hn]⟩
    | none => exact ⟨"invalid genesis spec: " ++ err, by simp only [NewNode, hn, hl]⟩
  · intro hn
    simp only [NewNode, hn, hl]

theorem NewNode_light_genesis (env : MobileEnv) (datadir : String) (config : NodeConfig)
    (node : Node) (genesis : Genesis) (hne : config.watchainGenesis ≠ "")
    (hp : env.unmarshalGenesis config.watchainGenesis = .ok genesis)
    (hen : config.watchainEnabled = true)
    (h : NewNode env datadir (some config) = .ok node) :
    ∃ watConf, lesConfigs node.services = [watConf] ∧
      watConf.Genesis =
        some (if config.watchainGenesis = env.TestnetGenesis then
          { genesis with Config := some env.TestnetChainConfig } else genesis) ∧
      watConf.NetworkId =
        uint64OfInt64 (if config.watchainGenesis = env.TestnetGenesis ∧
            config.watchainNetworkID = 1 then 3 else config.watchainNetworkID) := by
  obtain ⟨genesis1, config1, hload, hles⟩ := NewNode_les env datadir (some config) node h
  have hen1 : ((some config).getD (NewNodeConfig env)).watchainEnabled = true := hen
  rw [if_pos hen1] at hles
  refine ⟨_, hles, ?_⟩
  rw [loadGenesis_cases, (applyDefaults_genesis env config).1, if_neg hne, hp] at hload
  dsimp only at hload
  by_cases ht : config.watchainGenesis = env.TestnetGenesis
  · rw [if_pos ht] at hload
    have hpair := Except.ok.inj hload
    have hg := (congrArg Prod.fst hpair).symm
    have hc := (congrArg Prod.snd hpair).symm
    dsimp only at hg hc
    subst hg
    subst hc
    simp only [ht, if_true, true_and, lightConfig, (applyDefaults_genesis env config).2.1]
  · rw [if_neg ht] at hload
    have hpair := Except.ok.inj hload
    have hg := (congrArg Prod.fst hpair).symm
    have hc := (congrArg Prod.snd hpair).symm
    dsimp only at hg hc
    subst hg
    subst hc
    simp only [ht, if_false, false_and, lightConfig, (applyDefaults_genesis env config).2.1]
    first | done | exact ⟨trivial, trivial⟩

/-- C23: for a configuration whose genesis string is not empty: when the string
parses and is the test network genesis, the chain configuration of the parsed
genesis is replaced by the test network configuration and a network id of 1
becomes 3, every other network id being kept; when it parses and is another
string, the parsed genesis and the configuration are kept as they are; when it
does not parse, the genesis block fails with "invalid genesis spec: " followed
by the parser error, and NewNode returns no node, with that error whenever the
networking stack itself could be created.  On a node returned for a
configuration that enables the protocol, the light client receives that
genesis and that network id. -/
theorem testnet_hard_coding (env : MobileEnv) (config : NodeConfig)
    (hne : config.watchainGenesis ≠ "") :
    (∀ genesis, env.unmarshalGenesis config.watchainGenesis = .ok genesis →
      (config.watchainGenesis = env.TestnetGenesis →
        loadGenesis env config =
          .ok (some { genesis with Config := some env.TestnetChainConfig },
            { config with
              watchainNetworkID :=
                if config.watchainNetworkID = 1 then 3 else config.watchainNetworkID })) ∧
      (config.watchainGenesis ≠ env.TestnetGenesis →
        loadGenesis env config = .ok (some genesis, config)) ∧
      (∀ datadir node, config.watchainEnabled = true →
        NewNode env datadir (some config) = .ok node →
        ∃ watConf, lesConfigs node.services = [watConf] ∧
          watConf.Genesis =
            some (if config.watchainGenesis = env.TestnetGenesis then
              { genesis with Config := some env.TestnetChainConfig } else genesis) ∧
          watConf.NetworkId =
            uint64OfInt64 (if config.watchainGenesis = env.TestnetGenesis ∧
                config.watchainNetworkID = 1 then 3 else config.watchainNetworkID))) ∧
    (∀ err, env.unmarshalGenesis config.watchainGenesis = .error err →
      loadGenesis env config = .error ("invalid genesis spec: " ++ err) ∧
      ∀ datadir, (∃ e, NewNode env datadir (some config) = .error e) ∧
        (env.nodeNew (stackConfig env datadir (applyDefaults env (some config))) = none →
          NewNode env datadir (some config) = .error ("invalid genesis spec: " ++ err))) := by
  constructor
  · intro genesis hp
    refine ⟨?_, ?_, ?_⟩
    · intro ht
      rw [loadGenesis_cases, if_neg hne, hp]
      simp only [if_pos ht]
    · intro ht
      rw [loadGenesis_cases, if_neg hne, hp]
      simp only [if_neg ht]
    · intro datadir node hen h
      exact NewNode_light_genesis env datadir config node genesis hne hp hen h
  · intro err hp
    refine ⟨?_, fun datadir => NewNode_unparsable env datadir config err hne hp⟩
    rw [loadGenesis_cases, if_neg hne, hp]

theorem testnet_hard_coding_witness :
    (loadGenesis sampleMobileEnv { watchainGenesis := "testnet", watchainNetworkID := 1 } =
        .ok (some { sampleGenesis [] with Config := some sampleMobileEnv.TestnetChainConfig },
          { watchainGenesis := "testnet", watchainNetworkID := 3 })) ∧
    (loadGenesis sampleMobileEnv { watchainGenesis := "custom", watchainNetworkID := 1 } =
        .ok (some (sampleGenesis []), { watchainGenesis := "custom", watchainNetworkID := 1 })) ∧
    (loadGenesis sampleMobileEnv { watchainGenesis := "garbage", watchainNetworkID := 1 } =
        .error "invalid genesis spec: invalid character" ∧
      NewNode sampleMobileEnv "/data" (some { watchainGenesis := "garbage", watchainNetworkID := 1 })
        = .error "invalid genesis spec: invalid character") :=
  ⟨((testnet_hard_coding sampleMobileEnv { watchainGenesis := "testnet", watchainNetworkID := 1 }
      (by decide)).1 (sampleGenesis []) rfl).1 rfl,
   ((testnet_hard_coding sampleMobileEnv { watchainGenesis := "custom", watchainNetworkID := 1 }
      (by decide)).1 (sampleGenesis []) rfl).2.1 (by decide),
   ((testnet_hard_coding sampleMobileEnv { watchainGenesis := "garbage", watchainNetworkID := 1 }
      (by decide)).2 "invalid character" rfl).1,
   (((testnet_hard_coding sampleMobileEnv { watchainGenesis := "garbage", watchainNetworkID := 1 }
      (by decide)).2 "invalid character" rfl).2 "/data").2 rfl⟩

end TestnetTheorems

/-! ## Theorems: the full node service -/

section ServiceTheorems

/-- C24: for every input, the extra data returned is no longer than the limit;
a non-empty input within the limit is returned unchanged, an input longer than
the limit gives nil, and for an empty input the default is returned if it is
within the limit and nil otherwise. -/
theorem makeExtraData_bounded (maximumExtraDataSize : Nat) (defaultExtra extra : Bytes) :
    (makeExtraData maximumExtraDataSize defaultExtra extra).length ≤ maximumExtraDataSize ∧
    (extra.length ≠ 0 → extra.length ≤ maximumExtraDataSize →
      makeExtraData maximumExtraDataSize defaultExtra extra = extra) ∧
    (extra.length > maximumExtraDataSize →
      makeExtraData maximumExtraDataSize defaultExtra extra = []) ∧
    (extra.length = 0 →
      makeExtraData maximumExtraDataSize defaultExtra extra =
        (if defaultExtra.length > maximumExtraDataSize then [] else defaultExtra)) := by
  refine ⟨?_, ?_, ?_, ?_⟩
  · unfold makeExtraData
    dsimp only
    split_ifs
    all_goals first
      | (simp only [List.length_nil]; omega)
      | omega
  · intro h0 hle
    simp [makeExtraData, h0, Nat.not_lt.mpr hle]
  · intro hgt
    have h0 : extra.length ≠ 0 := by omega
    simp [makeExtraData, h0, hgt]
  · intro h0
    simp [makeExtraData, h0]

theorem makeExtraData_bounded_witness :
    (makeExtraData 4 [9, 9] [1, 2, 3]).length ≤ 4 ∧
    makeExtraData 4 [9, 9] [1, 2, 3] = [1, 2, 3] ∧
    makeExtraData 4 [9, 9] [1, 2, 3, 4, 5] = [] ∧
    makeExtraData 4 [9, 9] [] = (if ([9, 9] : Bytes).length > 4 then [] else [9, 9]) :=
  ⟨(makeExtraData_bounded 4 [9, 9] [1, 2, 3]).1,
   (makeExtraData_bounded 4 [9, 9] [1, 2, 3]).2.1 (by decide) (by decide),
   (makeExtraData_bounded 4 [9, 9] [1, 2, 3, 4, 5]).2.2.1 (by decide),
   (makeExtraData_bounded 4 [9, 9] []).2.2.2 rfl⟩

theorem wrapInt_of_isInt (x : Int) (h : isInt x) : wrapInt x = x := by
  unfold isInt at h
  unfold wrapInt
  omega

theorem Start_error (s : watchain) (m : Int) (hs : s.config.LightServ > 0)
    (hl : s.config.LightPeers ≥ m) :
    s.Start m = (some (invalidPeerConfig s.config.LightPeers m),
      [Started.bloomHandlers, Started.netRPCService s.networkId]) := by
  simp [watchain.Start, hs, hl]

theorem Start_light (s : watchain) (m : Int) (hs : s.config.LightServ > 0)
    (hl : ¬ s.config.LightPeers ≥ m) :
    (s.Start m).1 = none ∧
    protocolManagerPeers (s.Start m).2 = some (wrapInt (m - s.config.LightPeers)) := by
  cases hles : s.lesServer <;> simp [watchain.Start, hs, hl, hles, protocolManagerPeers]

theorem Start_full (s : watchain) (m : Int) (hs : ¬ s.config.LightServ > 0) :
    (s.Start m).1 = none ∧ protocolManagerPeers (s.Start m).2 = some m := by
  cases hles : s.lesServer <;> simp [watchain.Start, hs, hles, protocolManagerPeers]

/-- C25, as stated, fails: with one peer allowed, the light server enabled and
a light peer count of -2^63, Start returns no error and starts the protocol
manager with 1 - (-2^63) wrapped to 64 bits, which is -2^63 + 1 and not at
least 1. -/
theorem Start_peer_budget_overflow :
    isInt 1 ∧ isInt (-(2 ^ 63)) ∧
    ({ config := { LightServ := 1, LightPeers := -(2 ^ 63) } } : watchain).Start 1 =
      (none, [Started.bloomHandlers, Started.netRPCService 0,
        Started.protocolManager (-(2 ^ 63) + 1)]) ∧
    ¬ ((1 : Int) ≤ -(2 ^ 63) + 1) := by
  refine ⟨by unfold isInt; decide, by unfold isInt; decide, by decide, by decide⟩

/-- C25, amended: Start returns the "invalid peer config" error, having started
neither the protocol manager nor the light server, if and only if LightServ > 0
and the light peer count l is at least the peer limit m of the server;
otherwise it returns no error and starts the protocol manager with m when
LightServ <= 0, and with m - l computed in 64-bit arithmetic when
LightServ > 0, which is m - l itself and at least 1 whenever m - l is below
2^63, in particular whenever l is not negative. -/
theorem Start_peer_budget (s : watchain) (m : Int) (hm : isInt m)
    (hl : isInt s.config.LightPeers) :
    ((s.Start m).1 ≠ none ↔ (s.config.LightServ > 0 ∧ s.config.LightPeers ≥ m)) ∧
    ((s.config.LightServ > 0 ∧ s.config.LightPeers ≥ m) →
      s.Start m = (some (invalidPeerConfig s.config.LightPeers m),
        [Started.bloomHandlers, Started.netRPCService s.networkId])) ∧
    (s.config.LightServ > 0 → s.config.LightPeers < m →
      (s.Start m).1 = none ∧
      protocolManagerPeers (s.Start m).2 = some (wrapInt (m - s.config.LightPeers)) ∧
      (m - s.config.LightPeers < 2 ^ 63 →
        wrapInt (m - s.config.LightPeers) = m - s.config.LightPeers ∧
        1 ≤ wrapInt (m - s.config.LightPeers)) ∧
      (0 ≤ s.config.LightPeers → m - s.config.LightPeers < 2 ^ 63)) ∧
    (s.config.LightServ ≤ 0 →
      (s.Start m).1 = none ∧ protocolManagerPeers (s.Start m).2 = some m) := by
  have hm1 := hm
  have hl1 := hl
  unfold isInt at hm1 hl1
  refine ⟨?_, ?_, ?_, ?_⟩
  · constructor
    · intro herr
      by_cases hs : s.config.LightServ > 0
      · by_cases hge : s.config.LightPeers ≥ m
        · exact ⟨hs, hge⟩
        · exact absurd (Start_light s m hs hge).1 herr
      · exact absurd (Start_full s m hs).1 herr
    · rintro ⟨hs, hge⟩
      rw [Start_error s m hs hge]
      simp
  · rintro ⟨hs, hge⟩
    exact Start_error s m hs hge
  · intro hs hlt
    have hge : ¬ s.config.LightPeers ≥ m := by omega
    refine ⟨(Start_light s m hs hge).1, (Start_light s m hs hge).2, ?_, ?_⟩
    · intro hno
      have hw : wrapInt (m - s.config.LightPeers) = m - s.config.LightPeers :=
        wrapInt_of_isInt _ (by unfold isInt; omega)
      exact ⟨hw, by rw [hw]; omega⟩
    · intro h0
      omega
  · intro hs
    exact Start_full s m (by omega)

theorem Start_peer_budget_witness :
    (({ config := { LightServ := 1, LightPeers := 10 } } : watchain).Start 25).1 = none ∧
    protocolManagerPeers (({ config := { LightServ := 1, LightPeers := 10 } } : watchain).Start 25).2
      = some (wrapInt (25 - 10)) ∧
    ((25 : Int) - 10 < 2 ^ 63 → wrapInt (25 - 10) = 25 - 10 ∧ 1 ≤ wrapInt (25 - 10)) ∧
    ((0 : Int) ≤ 10 → (25 : Int) - 10 < 2 ^ 63) :=
  (Start_peer_budget { config := { LightServ := 1, LightPeers := 10 } } 25
    (by unfold isInt; decide) (by unfold isInt; decide)).2.2.1 (by decide) (by decide)

/-- C26: when the configured address is not zero it is returned and the service
is unchanged; when it is zero and the first wallet has an account, the first
account of the first wallet is returned and stored as the configured address;
when it is zero and there is no wallet or the first wallet has no account, the
zero address is returned with the error "waterbase must be explicitly
specified" and the service is unchanged.  A second call returns what the first
returned, and the result depends on the wallets through the first one only. -/
theorem waterbase_resolution (s : watchain) :
    (s.waterbase ≠ FixedBytes.zero AddressLength → s.waterbaseOf = (s.waterbase, none, s)) ∧
    (s.waterbase = FixedBytes.zero AddressLength →
      ∀ account accounts wallets, s.wallets = (account :: accounts) :: wallets →
        s.waterbaseOf = (account, none, { s with waterbase := account })) ∧
    (s.waterbase = FixedBytes.zero AddressLength →
      (s.wallets = [] ∨ ∃ wallets, s.wallets = [] :: wallets) →
        s.waterbaseOf =
          (FixedBytes.zero AddressLength, some "waterbase must be explicitly specified", s)) ∧
    (s.waterbaseOf.2.2.waterbaseOf = s.waterbaseOf) ∧
    (∀ t : watchain, t.waterbase = s.waterbase → t.wallets.head? = s.wallets.head? →
      t.waterbaseOf.1 = s.waterbaseOf.1 ∧ t.waterbaseOf.2.1 = s.waterbaseOf.2.1) := by
  refine ⟨?_, ?_, ?_, ?_, ?_⟩
  · intro h
    simp [watchain.waterbaseOf, h]
  · intro h account accounts wallets hw
    simp [watchain.waterbaseOf, h, hw]
  · intro h hw
    rcases hw with hw | ⟨wallets, hw⟩ <;> simp [watchain.waterbaseOf, h, hw, errWaterbaseMissing]
  · obtain ⟨config, waterbase, wallets, lesServer, networkId⟩ := s
    by_cases h : waterbase = FixedBytes.zero AddressLength
    · rcases wallets with _ | ⟨accounts, wallets⟩
      · simp [watchain.waterbaseOf, h]
      · rcases accounts with _ | ⟨account, accounts⟩
        · simp [watchain.waterbaseOf, h]
        · by_cases ha : account = FixedBytes.zero AddressLength
          · simp [watchain.waterbaseOf, h, ha]
          · simp [watchain.waterbaseOf, h, ha]
    · simp [watchain.waterbaseOf, h]
  · intro t htw hth
    obtain ⟨config, waterbase, wallets, lesServer, networkId⟩ := s
    obtain ⟨config2, waterbase2, wallets2, lesServer2, networkId2⟩ := t
    dsimp only at htw hth
    subst htw
    by_cases h : waterbase2 = FixedBytes.zero AddressLength
    · rcases wallets with _ | ⟨accounts, wallets⟩ <;>
        rcases wallets2 with _ | ⟨accounts2, wallets2⟩ <;>
        simp at hth
      · simp [watchain.waterbaseOf, h]
      · subst hth
        rcases accounts2 with _ | ⟨account, accounts⟩ <;> simp [watchain.waterbaseOf, h]
    · simp [watchain.waterbaseOf, h]

theorem waterbase_resolution_witness :
    ({ waterbase := rightAlignedAddress [7] } : watchain).waterbaseOf =
      (rightAlignedAddress [7], none, { waterbase := rightAlignedAddress [7] }) ∧
    ({ wallets := [[rightAlignedAddress [5], rightAlignedAddress [6]], [rightAlignedAddress [9]]] }
        : watchain).waterbaseOf =
      (rightAlignedAddress [5], none,
        { waterbase := rightAlignedAddress [5],
          wallets := [[rightAlignedAddress [5], rightAlignedAddress [6]],
            [rightAlignedAddress [9]]] }) ∧
    ({ wallets := [[], [rightAlignedAddress [9]]] } : watchain).waterbaseOf =
      (FixedBytes.zero AddressLength, some "waterbase must be explicitly specified",
        { wallets := [[], [rightAlignedAddress [9]]] }) :=
  ⟨(waterbase_resolution { waterbase := rightAlignedAddress [7] }).1 (by decide),
   (waterbase_resolution
      { wallets := [[rightAlignedAddress [5], rightAlignedAddress [6]],
          [rightAlignedAddress [9]]] }).2.1 rfl
      (rightAlignedAddress [5]) [rightAlignedAddress [6]] [[rightAlignedAddress [9]]] rfl,
   (waterbase_resolution { wallets := [[], [rightAlignedAddress [9]]] }).2.2.1 rfl
      (Or.inr ⟨[[rightAlignedAddress [9]]], rfl⟩)⟩

end ServiceTheorems

/-! ## Theorems: retrieval -/

section RetrievalTheorems

theorem pickBest_mem : ∀ (l : List Peer) (p : Peer), pickBest l = some p → p ∈ l := by
  intro l
  induction l with
  | nil => intro p h; cases h
  | cons q rest ih =>
    intro p h
    simp only [pickBest] at h
    cases hr : pickBest rest with
    | none =>
      rw [hr] at h
      cases h
      exact List.mem_cons_self _ _
    | some b =>
      rw [hr] at h
      dsimp only at h
      split_ifs at h
      · rw [← Option.some.inj h]
        exact List.mem_cons_of_mem _ (ih b hr)
      · rw [← Option.some.inj h]
        exact List.mem_cons_self _ _

theorem pickBest_none : ∀ (l : List Peer), pickBest l = none → l = [] := by
  intro l h
  cases l with
  | nil => rfl
  | cons q rest =>
    simp only [pickBest] at h
    cases hr : pickBest rest with
    | none => rw [hr] at h; cases h
    | some b =>
      rw [hr] at h
      dsimp only at h
      split_ifs at h

/-- The peer assigned by the distributor is registered, able to serve the kind
of request, and not excluded. -/
theorem Distribute_some (registry : List Peer) (kind : RequestKind) (excluded : List Nat)
    (p : Peer) (h : Distribute registry kind excluded = some p) :
    p ∈ registry ∧ servable kind p = true ∧ p.id ∉ excluded := by
  have hmem := pickBest_mem _ _ h
  rw [List.mem_filter] at hmem
  obtain ⟨hreg, hel⟩ := hmem
  simp only [eligible, Bool.and_eq_true, decide_eq_true_eq] at hel
  exact ⟨hreg, hel.1, hel.2⟩

/-- The distributor finds no peer only when every servable peer is excluded. -/
theorem Distribute_none (registry : List Peer) (kind : RequestKind) (excluded : List Nat)
    (h : Distribute registry kind excluded = none) :
    ∀ x ∈ servableIds registry kind, x ∈ excluded := by
  have hnil := pickBest_none _ h
  intro x hx
  simp only [servableIds, List.mem_dedup, List.mem_map, List.mem_filter] at hx
  obtain ⟨p, ⟨hreg, hserv⟩, hid⟩ := hx
  by_contra hne
  have hmem : p ∈ registry.filter (eligible kind excluded) := by
    rw [List.mem_filter]
    refine ⟨hreg, ?_⟩
    simp only [eligible, Bool.and_eq_true, decide_eq_true_eq]
    exact ⟨hserv, by rw [hid]; exact hne⟩
  rw [hnil] at hmem
  cases hmem

theorem release_reserve (registry : List Peer) (id : Nat) :
    release (reserve registry id) id = registry := by
  unfold release reserve
  rw [List.map_map]
  conv_rhs => rw [← List.map_id registry]
  apply List.map_congr_left
  intro p _
  by_cases h : p.id = id
  · subst h
    simp
  · simp [h]

/-- With every answer a timeout or an invalid response, the loop issues at most
as many wire requests as attempts remain and ends failed, as exhausted. -/
theorem retrieveLoop_bad (kind : RequestKind) (answer : Nat → Nat → Answer)
    (hbad : ∀ p i, answer p i = .invalid ∨ answer p i = .timeout) :
    ∀ (n : Nat) (s : Session),
      (retrieveLoop kind answer n s).sent.length ≤ s.sent.length + n ∧
      (retrieveLoop kind answer n s).state = .Failed ∧
      (retrieveLoop kind answer n s).error = some .exhausted ∧
      (retrieveLoop kind answer n s).attempts + s.sent.length =
        (retrieveLoop kind answer n s).sent.length + s.attempts := by
  intro n
  induction n with
  | zero =>
    intro s
    simp [retrieveLoop, Nat.add_comm]
  | succ n ih =>
    intro s
    simp only [retrieveLoop]
    cases hd : Distribute s.registry kind s.tried with
    | none => simp [Nat.add_comm]
    | some p =>
      dsimp only
      have hrec := ih
        { state := .Pending, attempts := s.attempts + 1, tried := p.id :: s.tried,
          sent := p.id :: s.sent, error := s.error,
          registry := release (reserve s.registry p.id) p.id }
      simp only [List.length_cons] at hrec
      obtain ⟨h1, h2, h3, h4⟩ := hrec
      rcases hbad p.id s.attempts with ha | ha
      · rw [ha]
        dsimp only
        exact ⟨by omega, h2, h3, by omega⟩
      · rw [ha]
        dsimp only
        exact ⟨by omega, h2, h3, by omega⟩

/-- A list without repetition drawn from the servable peers is no longer than
their number. -/
theorem tried_length_le (registry : List Peer) (kind : RequestKind) (tried : List Nat)
    (hnd : tried.Nodup) (hsub : ∀ x ∈ tried, x ∈ servableIds registry kind) :
    tried.length ≤ (servableIds registry kind).length :=
  (List.subperm_of_subset hnd hsub).length_le

/-- With every answer a timeout or an invalid response, the loop issues one wire
request per attempt until the attempts or the servable peers run out: starting
from a session whose requests went to the peers recorded as tried, distinct
and servable, the requests issued in the end number the smaller of the
requests so far plus the attempts left, and the servable peers. -/
theorem retrieveLoop_count (kind : RequestKind) (answer : Nat → Nat → Answer)
    (hbad : ∀ p i, answer p i = .invalid ∨ answer p i = .timeout) :
    ∀ (n : Nat) (s : Session), s.sent = s.tried → s.tried.Nodup →
      (∀ x ∈ s.tried, x ∈ servableIds s.registry kind) →
      (retrieveLoop kind answer n s).sent.length =
        min (s.sent.length + n) (servableIds s.registry kind).length := by
  intro n
  induction n with
  | zero =>
    intro s hst hnd hsub
    have hle := tried_length_le s.registry kind s.tried hnd hsub
    simp only [retrieveLoop, Nat.add_zero]
    rw [hst]
    omega
  | succ n ih =>
    intro s hst hnd hsub
    have hle := tried_length_le s.registry kind s.tried hnd hsub
    simp only [retrieveLoop]
    cases hd : Distribute s.registry kind s.tried with
    | none =>
      have hall : servableIds s.registry kind ⊆ s.tried := Distribute_none _ _ _ hd
      have hge : (servableIds s.registry kind).length ≤ s.tried.length :=
        (List.subperm_of_subset (List.nodup_dedup _) hall).length_le
      dsimp only
      rw [hst]
      omega
    | some p =>
      dsimp only
      obtain ⟨hreg, hserv, hnew⟩ := Distribute_some _ _ _ _ hd
      have hid : p.id ∈ servableIds s.registry kind := by
        simp only [servableIds, List.mem_dedup, List.mem_map, List.mem_filter]
        exact ⟨p, ⟨hreg, hserv⟩, rfl⟩
      have hrec := ih
        { state := .Pending, attempts := s.attempts + 1, tried := p.id :: s.tried,
          sent := p.id :: s.sent, error := s.error,
          registry := release (reserve s.registry p.id) p.id }
        (by rw [hst])
        (List.nodup_cons.mpr ⟨hnew, hnd⟩)
        (by
          intro x hx
          simp only [release_reserve]
          rcases List.mem_cons.mp hx with hx | hx
          · rw [hx]; exact hid
          · exact hsub x hx)
      simp only [release_reserve, List.length_cons] at hrec
      rcases hbad p.id s.attempts with ha | ha
      · rw [ha]
        simp only [release_reserve]
        rw [hrec]
        omega
      · rw [ha]
        simp only [release_reserve]
        rw [hrec]
        omega

/-- No peer is sent the request twice: the wire requests of a session go to
distinct peers, provided those already issued did and went to peers that are
recorded as tried. -/
theorem retrieveLoop_nodup (kind : RequestKind) (answer : Nat → Nat → Answer) :
    ∀ (n : Nat) (s : Session), s.sent.Nodup → (∀ x ∈ s.sent, x ∈ s.tried) →
      (retrieveLoop kind answer n s).sent.Nodup := by
  intro n
  induction n with
  | zero =>
    intro s hnd _
    simpa [retrieveLoop] using hnd
  | succ n ih =>
    intro s hnd hsub
    simp only [retrieveLoop]
    cases hd : Distribute s.registry kind s.tried with
    | none => simpa using hnd
    | some p =>
      dsimp only
      have hnew : p.id ∉ s.sent := fun hin => (Distribute_some _ _ _ _ hd).2.2 (hsub _ hin)
      have hnd1 : (p.id :: s.sent).Nodup := List.nodup_cons.mpr ⟨hnew, hnd⟩
      cases ha : answer p.id s.attempts with
      | valid => simpa using hnd1
      | timeout =>
        dsimp only
        apply ih
        · exact hnd1
        · intro x hx
          rcases List.mem_cons.mp hx with hx | hx
          · rw [hx]; exact List.mem_cons_self _ _
          · exact List.mem_cons_of_mem _ (hsub _ hx)
      | invalid =>
        dsimp only
        apply ih
        · exact hnd1
        · intro x hx
          rcases List.mem_cons.mp hx with hx | hx
          · rw [hx]; exact List.mem_cons_self _ _
          · exact List.mem_cons_of_mem _ (hsub _ hx)

/-- C21: for every k, with max-attempts = k and every answer of every peer an
invalid response or a timeout, a retrieval issues at most k wire requests, one
per attempt, and ends in the Failed state with the exhaustion error; the
requests issued number k, or the distinct peers able to serve the request when
these are fewer than k, each peer being tried once. -/
theorem bounded_retries (k : Nat) (registry : List Peer) (kind : RequestKind)
    (answer : Nat → Nat → Answer)
    (hbad : ∀ p i, answer p i = .invalid ∨ answer p i = .timeout) :
    (Retrieve k registry kind answer).sent.length ≤ k ∧
    (Retrieve k registry kind answer).state = .Failed ∧
    (Retrieve k registry kind answer).error = some .exhausted ∧
    (Retrieve k registry kind answer).attempts = (Retrieve k registry kind answer).sent.length ∧
    (Retrieve k registry kind answer).sent.length = min k (servableIds registry kind).length := by
  obtain ⟨h1, h2, h3, h4⟩ := retrieveLoop_bad kind answer hbad k (Session.init registry)
  have h5 := retrieveLoop_count kind answer hbad k (Session.init registry) rfl List.nodup_nil
    (fun x hx => by cases hx)
  simp only [Session.init, List.length_nil, Nat.zero_add, Nat.add_zero] at h1 h4 h5
  exact ⟨h1, h2, h3, h4, h5⟩

theorem bounded_retries_witness :
    (Retrieve 2 sampleRegistry .receipts (fun p _ => if p = 2 then .timeout else .invalid)).sent.length
      ≤ 2 ∧
    (Retrieve 2 sampleRegistry .receipts (fun p _ => if p = 2 then .timeout else .invalid)).state
      = .Failed ∧
    (Retrieve 2 sampleRegistry .receipts (fun p _ => if p = 2 then .timeout else .invalid)).error
      = some .exhausted ∧
    (Retrieve 2 sampleRegistry .receipts (fun p _ => if p = 2 then .timeout else .invalid)).attempts
      = (Retrieve 2 sampleRegistry .receipts
          (fun p _ => if p = 2 then .timeout else .invalid)).sent.length ∧
    (Retrieve 2 sampleRegistry .receipts (fun p _ => if p = 2 then .timeout else .invalid)).sent.length
      = min 2 (servableIds sampleRegistry .receipts).length :=
  bounded_retries 2 sampleRegistry .receipts (fun p _ => if p = 2 then .timeout else .invalid)
    (fun p _ => by by_cases h : p = 2 <;> simp [h])

/-- Retrievals on the sample registry of three peers that never answer validly:
with two attempts the two cheapest peers are asked; with five attempts each of
the three peers is asked once and the session fails as exhausted; a valid
answer of the third peer ends the session as Done. -/
theorem Retrieve_sample_runs :
    (Retrieve 2 sampleRegistry .receipts (fun _ _ => .timeout)).sent = [3, 2] ∧
    (Retrieve 5 sampleRegistry .receipts (fun _ _ => .timeout)).sent = [1, 3, 2] ∧
    (Retrieve 5 sampleRegistry .receipts (fun _ _ => .timeout)).state = .Failed ∧
    (Retrieve 5 sampleRegistry .receipts (fun _ _ => .timeout)).error = some .exhausted ∧
    (Retrieve 3 sampleRegistry .receipts
        (fun p _ => if p = 3 then .valid else .invalid)).state = .Done ∧
    (Retrieve 3 sampleRegistry .receipts
        (fun p _ => if p = 3 then .valid else .invalid)).sent = [3, 2] := by
  decide

/-- C22: whatever the registry and the set of excluded peers, so for the peers
already tried in any state of a session, the peer chosen by the distributor is
a registered peer that is not excluded; and the wire requests of a retrieval go
to pairwise distinct peers, whatever the peers answer. -/
theorem peer_exclusion (registry : List Peer) (kind : RequestKind) (excluded : List Nat)
    (maxAttempts : Nat) (answer : Nat → Nat → Answer) :
    (∀ p, Distribute registry kind excluded = some p → p.id ∉ excluded ∧ p ∈ registry) ∧
    (Retrieve maxAttempts registry kind answer).sent.Nodup := by
  constructor
  · intro p h
    exact ⟨(Distribute_some _ _ _ _ h).2.2, (Distribute_some _ _ _ _ h).1⟩
  · exact retrieveLoop_nodup kind answer maxAttempts (Session.init registry) List.nodup_nil
      (fun x hx => by cases hx)

theorem peer_exclusion_witness :
    (3 ∉ [2] ∧ (⟨3, 1, 4, 10, true, [.headers, .body, .receipts, .proof, .code]⟩ : Peer) ∈
      sampleRegistry) ∧
    (Retrieve 5 sampleRegistry .receipts (fun _ _ => .timeout)).sent.Nodup :=
  ⟨(peer_exclusion sampleRegistry .receipts [2] 5 (fun _ _ => .timeout)).1
      ⟨3, 1, 4, 10, true, [.headers, .body, .receipts, .proof, .code]⟩ (by decide),
   (peer_exclusion sampleRegistry .receipts [2] 5 (fun _ _ => .timeout)).2⟩

end RetrievalTheorems

end Watchain
